import Mathlib

/-!
# CppMicroServices: framework controller and bundle worker

A shallow embedding of `core/src/util/usFrameworkPrivate.cpp` and
`core/src/bundle/usBundleThread.cpp`.

Mutable objects become records that are passed explicitly.  A C++ function
that may throw returns a `Res`: the object as the function left it, and the
exception when one escaped.  Code that runs on other threads or lives in
other translation units (activators, listeners, the core context, the
clock) is a parameter of the model: an outcome chosen by the caller of the
definition.  Each record carries a `trace`, the history of the calls and
assignments the embedded code performed, so that "was called", "exactly
once" and "in this order" can be stated.
-/

namespace us

/-! ## Exceptions and results -/

/-- A thrown C++ object.  `logic_error` and `runtime_error` derive from
`std::exception`; `other` is any object that does not. -/
inductive Exc where
  | logic_error (what : String)
  | runtime_error (what : String)
  | other
  deriving DecidableEq

/-- True when `catch (const std::exception&)` matches the thrown object. -/
def Exc.isStd : Exc → Bool
  | .logic_error _ => true
  | .runtime_error _ => true
  | .other => false

/-- The text of `e.what()`. -/
def Exc.what : Exc → String
  | .logic_error w => w
  | .runtime_error w => w
  | .other => ""

/-- Outcome of a `void` C++ function over a mutable object of type `σ`:
normal return, or an exception leaving the function, each with the object
as it is at that point. -/
inductive Res (σ : Type) where
  | ok (s : σ)
  | throw (e : Exc) (s : σ)

/-- The object after the call. -/
def Res.st {σ : Type} : Res σ → σ
  | .ok s => s
  | .throw _ s => s

/-- The escaped exception, `none` on normal return. -/
def Res.exc {σ : Type} : Res σ → Option Exc
  | .ok _ => none
  | .throw e _ => some e

/-- Sequencing of statements: the rest runs only after a normal return. -/
def Res.andThen {σ : Type} (r : Res σ) (k : σ → Res σ) : Res σ :=
  match r with
  | .ok s => k s
  | .throw e s => .throw e s

/-! ## Data model -/

/-- The enumerators of `Bundle::State`. -/
inductive State where
  | STATE_UNINSTALLED
  | STATE_INSTALLED
  | STATE_RESOLVED
  | STATE_STARTING
  | STATE_STOPPING
  | STATE_ACTIVE
  deriving DecidableEq

/-- Modelled from the spec: the numeric values of `Bundle::State` (declared in
`usBundle.h`, which is not in the source tree) are distinct powers of two, so
that states can be combined in set-membership tests. -/
def State.bits : State → Nat
  | .STATE_UNINSTALLED => 1
  | .STATE_INSTALLED => 2
  | .STATE_RESOLVED => 4
  | .STATE_STARTING => 8
  | .STATE_STOPPING => 16
  | .STATE_ACTIVE => 32

/-- The operation tag of a bundle (`BundlePrivate::operation`). -/
inductive Operation where
  | OP_IDLE
  | OP_ACTIVATING
  | OP_DEACTIVATING
  | OP_RESOLVING
  | OP_UNINSTALLING
  deriving DecidableEq

/-- The values of `BundlePrivate::Aborted`. -/
inductive Aborted where
  | NONE
  | YES
  | NO
  deriving DecidableEq

/-- The values of `FrameworkEvent::Type` that the controller uses. -/
inductive EventType where
  | ERROR
  | STOPPED
  | STOPPED_UPDATE
  | WAIT_TIMEDOUT
  deriving DecidableEq

/-- The stop-event slot `FrameworkEventInternal { valid, type, excPtr }`. -/
structure FrameworkEventInternal where
  valid : Bool
  type : EventType
  excPtr : Option Exc
  deriving DecidableEq

/-- A `FrameworkEvent(type, bundle, excPtr)`; the bundle is always the
framework bundle itself and is left out. -/
structure FrameworkEvent where
  type : EventType
  excPtr : Option Exc
  deriving DecidableEq

/-- The fields of `BundlePrivate` that the embedded code reads or writes.
`bactivator` is true while the bundle owns an activator instance. -/
structure BundlePrivate where
  id : Nat
  state : State
  aborted : Aborted
  bactivator : Bool
  deriving DecidableEq

/-- What the framework controller does, in program order. -/
inductive Call where
  | waitOnOperation
  | coreInit
  | bundleChanged
  | stop (id : Nat)
  | logError (what : String)
  | setStateInstalled (id : Nat)
  | uninit0
  | uninit1
  | start
  | notifyAll
  | setStopEvent (fe : FrameworkEventInternal)
  | spawnShutdown (restart wasActive : Bool)
  | waitStopEvent (timeout : Int)
  | joinShutdown
  deriving DecidableEq

/-- The framework bundle (`FrameworkPrivate`, bundle id 0) together with the
bundle registry of its core context.  `bundles` holds the other bundle
objects; `shutdownThread` is `some (restart, wasActive)` while the shutdown
thread is joinable. -/
structure FrameworkPrivate where
  state : State
  operation : Operation
  stopEvent : FrameworkEventInternal
  shutdownThread : Option (Bool × Bool)
  bundles : List BundlePrivate
  trace : List Call
  deriving DecidableEq

/-- Code outside the source tree, as seen from the controller: whether it
throws, and what it does to the other bundles.  `waitOnOperation` is the
outcome of waiting for a pending operation; `stop id` is `Bundle::Stop` of
bundle `id`; `getActiveBundles` is the snapshot of the registry. -/
structure Collab where
  waitOnOperation : Option Exc
  coreInit : Option Exc
  bundleChanged : Option Exc
  getActiveBundles : List BundlePrivate → List Nat
  stop : Nat → List BundlePrivate → List BundlePrivate × Option Exc
  uninit0 : Option Exc
  uninit1 : Option Exc
  start : Option Exc

/-- Append a call to the history. -/
def FrameworkPrivate.record (fw : FrameworkPrivate) (c : Call) : FrameworkPrivate :=
  { fw with trace := fw.trace ++ [c] }

/-- A call into code outside the source tree: it is recorded, then returns or
throws as the collaborator decides. -/
def callOut (c : Call) (outcome : Option Exc) (fw : FrameworkPrivate) : Res FrameworkPrivate :=
  match outcome with
  | none => .ok (fw.record c)
  | some e => .throw e (fw.record c)

/-- Modelled from the spec: `BundlePrivate::WaitOnOperation` is not in the
source tree.  It waits for any other pending operation on the bundle: with
no operation pending it returns at once; otherwise it returns once the
operation tag is `IDLE` again, or throws when that does not happen in time. -/
def WaitOnOperation (env : Collab) (fw : FrameworkPrivate) : Res FrameworkPrivate :=
  if fw.operation = .OP_IDLE then .ok (fw.record .waitOnOperation)
  else
    match env.waitOnOperation with
    | none => .ok { fw.record .waitOnOperation with operation := .OP_IDLE }
    | some e => .throw e (fw.record .waitOnOperation)

/-! ## usFrameworkPrivate.cpp -/

/-- `FrameworkPrivate::DoInit`. -/
def DoInit (env : Collab) (fw : FrameworkPrivate) : Res FrameworkPrivate :=
  callOut .coreInit env.coreInit { fw with state := .STATE_STARTING }

/-- `FrameworkPrivate::Init`. -/
def Init (env : Collab) (fw : FrameworkPrivate) : Res FrameworkPrivate :=
  (WaitOnOperation env fw).andThen fun fw =>
    match fw.state with
    | .STATE_INSTALLED => DoInit env fw
    | .STATE_RESOLVED => DoInit env fw
    | .STATE_STARTING => .ok fw
    | .STATE_ACTIVE => .ok fw
    | s => .throw (.logic_error ("INTERNAL ERROR, Illegal state, " ++ toString s.bits)) fw

/-- `FrameworkPrivate::SystemShuttingdownDone_unlocked`. -/
def SystemShuttingdownDone_unlocked (fe : FrameworkEventInternal) (fw : FrameworkPrivate) :
    FrameworkPrivate :=
  let fw1 :=
    if fw.state ≠ .STATE_INSTALLED then
      ({ fw with state := .STATE_RESOLVED, operation := .OP_IDLE }).record .notifyAll
    else fw
  ({ fw1 with stopEvent := fe }).record (.setStopEvent fe)

/-- `FrameworkPrivate::ShutdownDone_unlocked`. -/
def ShutdownDone_unlocked (restart : Bool) (fw : FrameworkPrivate) : FrameworkPrivate :=
  let t := if restart then EventType.STOPPED_UPDATE else EventType.STOPPED
  SystemShuttingdownDone_unlocked ⟨true, t, none⟩ fw

/-- The state behind a bundle handle: handle 0 is the framework bundle
itself, any other handle is looked up among the other bundles. -/
def stateOf (fw : FrameworkPrivate) (id : Nat) : Option State :=
  if id = 0 then some fw.state
  else (fw.bundles.find? fun b => b.id == id).map fun b => b.state

/-- The test `((Bundle::STATE_ACTIVE | Bundle::STATE_STARTING) & b->state) != 0`;
a handle that resolves to no bundle object is not active. -/
def isActiveOrStarting (fw : FrameworkPrivate) (id : Nat) : Bool :=
  match stateOf fw id with
  | some s => (State.STATE_ACTIVE.bits ||| State.STATE_STARTING.bits) &&& s.bits != 0
  | none => false

/-- One iteration of the first loop of `FrameworkPrivate::StopAllBundles`:
the guarded `b->Stop(STOP_TRANSIENT)` inside `try`, and the handler
`catch (...)`, which rethrows into `catch (const std::exception&)`. -/
def stopOne (env : Collab) (id : Nat) (fw : FrameworkPrivate) : Res FrameworkPrivate :=
  if isActiveOrStarting fw id then
    let r := env.stop id fw.bundles
    let fw1 := { fw.record (.stop id) with bundles := r.1 }
    match r.2 with
    | none => .ok fw1
    | some e => if e.isStd then .ok (fw1.record (.logError e.what)) else .throw e fw1
  else .ok fw

/-- The first loop of `StopAllBundles` over the handles in iteration order. -/
def stopSweep (env : Collab) : List Nat → FrameworkPrivate → Res FrameworkPrivate
  | [], fw => .ok fw
  | id :: rest, fw => (stopOne env id fw).andThen (stopSweep env rest)

/-- Modelled from the spec: `BundleRegistry::GetBundles` is not in the source
tree.  The registry maps ids to bundles and always holds the framework
bundle (id 0); the enumeration yields every bundle of the registry. -/
def GetBundles (fw : FrameworkPrivate) : List Nat :=
  0 :: fw.bundles.map fun b => b.id

/-- Modelled from the spec: `BundlePrivate::SetStateInstalled` is not in the
source tree.  It forces the bundle it is called on to `INSTALLED`. -/
def SetStateInstalled (id : Nat) (fw : FrameworkPrivate) : FrameworkPrivate :=
  let fw1 := fw.record (.setStateInstalled id)
  if id = 0 then { fw1 with state := .STATE_INSTALLED }
  else
    { fw1 with bundles := fw1.bundles.map fun b =>
        if b.id = id then { b with state := .STATE_INSTALLED } else b }

/-- The second loop of `StopAllBundles`: `if (b->id != 0) b->SetStateInstalled(false, l)`. -/
def installWalk : List Nat → FrameworkPrivate → FrameworkPrivate
  | [], fw => fw
  | id :: rest, fw => installWalk rest (if id ≠ 0 then SetStateInstalled id fw else fw)

/-- `FrameworkPrivate::StopAllBundles`: the snapshot of active bundles is
walked from `rbegin()` to `rend()`, then all bundles are set to installed. -/
def StopAllBundles (env : Collab) (fw : FrameworkPrivate) : Res FrameworkPrivate :=
  (stopSweep env (env.getActiveBundles fw.bundles).reverse fw).andThen fun fw1 =>
    .ok (installWalk (GetBundles fw1) fw1)

/-- Modelled from the spec: `FrameworkPrivate::Start` is not in the source
tree.  It completes initialization and transitions to `ACTIVE`; the work
between the two (events, autostart) is the collaborator call `start`. -/
def Start (env : Collab) (fw : FrameworkPrivate) : Res FrameworkPrivate :=
  (Init env fw).andThen fun fw1 =>
    (callOut .start env.start fw1).andThen fun fw2 =>
      .ok { fw2 with state := .STATE_ACTIVE }

/-- The statements of `Shutdown0` inside `try` that come before
`ShutdownDone_unlocked(restart)`. -/
def shutdownSteps (env : Collab) (wasActive : Bool) (fw : FrameworkPrivate) :
    Res FrameworkPrivate :=
  (WaitOnOperation env fw).andThen fun fw1 =>
    (callOut .bundleChanged env.bundleChanged
        { fw1 with operation := .OP_DEACTIVATING, state := .STATE_STOPPING }).andThen fun fw2 =>
      (if wasActive then StopAllBundles env fw2 else .ok fw2).andThen fun fw3 =>
        (callOut .uninit0 env.uninit0 fw3).andThen fun fw4 =>
          callOut .uninit1 env.uninit1 fw4

/-- The tail of the `try` block of `Shutdown0`: `if (restart)` replay
`Start(0)` or `Init()`. -/
def replay (env : Collab) (restart wasActive : Bool) (fw : FrameworkPrivate) :
    Res FrameworkPrivate :=
  if restart then
    if wasActive then Start env fw else Init env fw
  else .ok fw

/-- The whole `try` block of `Shutdown0`: the steps, then
`ShutdownDone_unlocked(restart)`, then the replay. -/
def shutdownBody (env : Collab) (restart wasActive : Bool) (fw : FrameworkPrivate) :
    Res FrameworkPrivate :=
  (shutdownSteps env wasActive fw).andThen fun fw5 =>
    replay env restart wasActive (ShutdownDone_unlocked restart fw5)

/-- `FrameworkPrivate::Shutdown0`: the `try` block and its `catch (...)`. -/
def Shutdown0 (env : Collab) (restart wasActive : Bool) (fw : FrameworkPrivate) :
    FrameworkPrivate :=
  match shutdownBody env restart wasActive fw with
  | .ok fw1 => fw1
  | .throw e fw1 => SystemShuttingdownDone_unlocked ⟨true, .ERROR, some e⟩ fw1

/-- The `ACTIVE`/`STARTING` arm of `Shutdown`.  With threading support the
shutdown thread is started unless it is still joinable; without it
`Shutdown0` runs in place. -/
def launchShutdown (threading : Bool) (env : Collab) (restart wa : Bool)
    (fw : FrameworkPrivate) : FrameworkPrivate :=
  if threading then
    if fw.shutdownThread.isNone then
      ({ fw with shutdownThread := some (restart, wa) }).record (.spawnShutdown restart wa)
    else fw
  else Shutdown0 env restart wa fw

/-- `FrameworkPrivate::Shutdown`; `threading` is `US_ENABLE_THREADING_SUPPORT`. -/
def Shutdown (threading : Bool) (env : Collab) (restart : Bool) (fw : FrameworkPrivate) :
    FrameworkPrivate :=
  match fw.state with
  | .STATE_INSTALLED => ShutdownDone_unlocked false fw
  | .STATE_RESOLVED => ShutdownDone_unlocked false fw
  | .STATE_ACTIVE => launchShutdown threading env restart true fw
  | .STATE_STARTING => launchShutdown threading env restart false fw
  | .STATE_UNINSTALLED => fw
  | .STATE_STOPPING => fw

/-- The statement `if (shutdownThread.joinable()) shutdownThread.join();`. -/
def joinShutdownThread (fw : FrameworkPrivate) : FrameworkPrivate :=
  if fw.shutdownThread.isSome then
    ({ fw with shutdownThread := none }).record .joinShutdown
  else fw

/-- The wait on the stop-event slot inside `WaitForStop`.  `arrival` is what
the shutdown path does meanwhile: `some (t, type, cause)` when it publishes a
valid event `t` milliseconds into the wait, `none` when it never does.
`Wait` (timeout 0) returns only once the slot is valid, and the result is
`none` when that never happens; `WaitFor` returns at the latest when the
timer expires. -/
def waitStopEvent (timeout : Int) (arrival : Option (Nat × EventType × Option Exc))
    (fw : FrameworkPrivate) : Option FrameworkPrivate :=
  let fw1 := fw.record (.waitStopEvent timeout)
  match arrival with
  | some (t, ty, ex) =>
    if timeout = 0 ∨ (t : Int) ≤ timeout then
      some (SystemShuttingdownDone_unlocked ⟨true, ty, ex⟩ fw1)
    else some fw1
  | none => if timeout = 0 then none else some fw1

/-- The last two statements of `WaitForStop`. -/
def joinAndReturn (fw : FrameworkPrivate) : FrameworkEvent × FrameworkPrivate :=
  let fw1 := joinShutdownThread fw
  (⟨fw1.stopEvent.type, fw1.stopEvent.excPtr⟩, fw1)

/-- `FrameworkPrivate::WaitForStop`; `none` when the call never returns. -/
def WaitForStop (timeout : Int) (arrival : Option (Nat × EventType × Option Exc))
    (fw : FrameworkPrivate) : Option (FrameworkEvent × FrameworkPrivate) :=
  if (State.STATE_INSTALLED.bits ||| State.STATE_RESOLVED.bits) &&& fw.state.bits = 0 then
    let fw1 := ({ fw with stopEvent := ⟨false, .ERROR, none⟩ }).record
      (.setStopEvent ⟨false, .ERROR, none⟩)
    match waitStopEvent timeout arrival fw1 with
    | none => none
    | some fw2 =>
      if !fw2.stopEvent.valid then some (⟨.WAIT_TIMEDOUT, none⟩, fw2)
      else some (joinAndReturn fw2)
  else if !fw.stopEvent.valid then
    some (joinAndReturn
      (({ fw with stopEvent := ⟨true, .STOPPED, none⟩ }).record
        (.setStopEvent ⟨true, .STOPPED, none⟩)))
  else some (joinAndReturn fw)

/-- True for an assignment to the stop-event slot. -/
def isSlotWrite : Call → Bool
  | .setStopEvent _ => true
  | _ => false

/-- Number of assignments to the stop-event slot in a history. -/
def slotWrites (t : List Call) : Nat :=
  t.countP isSlotWrite

/-- The step from `fw` to `fw1` neither assigns the stop-event slot nor
changes its content. -/
def Quiet (fw fw1 : FrameworkPrivate) : Prop :=
  fw1.stopEvent = fw.stopEvent ∧ slotWrites fw1.trace = slotWrites fw.trace

/-- The framework is stopped: its state is `INSTALLED` or `RESOLVED`. -/
def isStopped (fw : FrameworkPrivate) : Bool :=
  decide (fw.state = .STATE_INSTALLED) || decide (fw.state = .STATE_RESOLVED)

/-- The timer of a wait with time-out `timeout` expires with no valid event in
the slot: the wait is bounded and the shutdown path publishes nothing, or
only after `timeout` milliseconds. -/
def timerExpired (timeout : Int) (arrival : Option (Nat × EventType × Option Exc)) : Bool :=
  decide (timeout ≠ 0) &&
    match arrival with
    | none => true
    | some (t, _, _) => decide (timeout < (t : Int))

/-! ## usBundleThread.cpp -/

/-- `BundleThread::OP_IDLE`. -/
def OP_IDLE : Int := 0

/-- `BundleThread::OP_BUNDLE_EVENT`. -/
def OP_BUNDLE_EVENT : Int := 1

/-- `BundleThread::OP_START`. -/
def OP_START : Int := 2

/-- `BundleThread::OP_STOP`. -/
def OP_STOP : Int := 3

/-- A `BundleEvent`: the code of its type and the id of its bundle. -/
structure BundleEvent where
  type : Nat
  bundle : Nat
  deriving DecidableEq

/-- The fields of a worker (`BundleThread`).  `self` identifies the worker in
the pool, `res` is the result slot: `none` while unset, `some r` once set to
the exception pointer `r`; `be` is the pending bundle event. -/
structure BundleThread where
  self : Nat
  startStopTimeout : Int
  bundle : Option Nat
  operation : Int
  doRun : Bool
  res : Option (Option Exc)
  be : Option BundleEvent := none
  deriving DecidableEq

/-- What `StartAndWait` and `Run` do besides assigning fields, in program
order. -/
inductive ThreadCall where
  | notifyAll
  | waitFor (left : Int)
  | startFailed
  | bactivatorReset
  | stop2
  | quit
  | pushFront
  | resetBundleThread
  | waitKeepAlive
  | listenersBundleChanged
  | start0
  | stop1
  | logError (what : String)
  | resolverNotifyAll
  deriving DecidableEq

/-- Everything `StartAndWait` touches: the worker, the bundle `*b`, and the
worker pool `fwCtx->bundleThreads` (`live` is its `value`). -/
structure ThreadWorld where
  bt : BundleThread
  b : BundlePrivate
  live : List Nat
  zombies : List Nat
  trace : List ThreadCall
  deriving DecidableEq

/-- One return of `fwCtx->resolver.WaitFor` in `StartAndWait`, with what other
threads did while the caller slept: `now` is the reading of `Clock::now()`
(milliseconds), `state` the value of `b->state`, `aborted` a value another
thread stored into `b->aborted` (if any), and `done` the result the worker
published with `operation = OP_IDLE; res.Set(tmpres)` (if it finished). -/
structure Wake where
  now : Int
  state : State
  aborted : Option Aborted
  done : Option (Option Exc)
  deriving DecidableEq

/-- The locals `left`, `timeout` and `uninstall` of `StartAndWait`. -/
structure WaitVars where
  left : Int
  timeout : Bool
  uninstall : Bool
  deriving DecidableEq

/-- Append a call to the history. -/
def ThreadWorld.record (x : ThreadWorld) (c : ThreadCall) : ThreadWorld :=
  { x with trace := x.trace ++ [c] }

/-- The statement `res.Set(r)`. -/
def ThreadWorld.setRes (x : ThreadWorld) (r : Option Exc) : ThreadWorld :=
  { x with bt := { x.bt with res := some r } }

/-- The effect of the other threads during one wait. -/
def applyWake (w : Wake) (x : ThreadWorld) : ThreadWorld :=
  let b1 := { x.b with state := w.state, aborted := w.aborted.getD x.b.aborted }
  match w.done with
  | some r => { x with b := b1, bt := { x.bt with operation := OP_IDLE, res := some r } }
  | none => { x with b := b1 }

/-- One pass through the body of the `do ... while (!res.IsSet())` loop. -/
def waitStep (op waitUntil : Int) (w : Wake) (v : WaitVars) (x : ThreadWorld) :
    WaitVars × ThreadWorld :=
  let x1 := applyWake w (x.record (.waitFor v.left))
  if (op = OP_START ∨ op = OP_STOP) ∧ x1.b.state = .STATE_UNINSTALLED then
    ({ v with uninstall := true }, x1.setRes none)
  else if v.left > 0 then
    let left := waitUntil - w.now
    if left ≤ 0 ∧ ((op = OP_START ∧ x1.b.state = .STATE_STARTING)
        ∨ (op = OP_STOP ∧ x1.b.state = .STATE_STOPPING)) then
      ({ v with left := left, timeout := true }, x1.setRes none)
    else ({ v with left := left }, x1)
  else (v, x1)

/-- The loop `do ... while (!res.IsSet())`, one wake-up per pass; `none` when
the wake-ups run out with the result slot still unset (the caller stays
blocked). -/
def waitLoop (op waitUntil : Int) : List Wake → WaitVars → ThreadWorld →
    Option (WaitVars × ThreadWorld)
  | [], _, _ => none
  | w :: ws, v, x =>
    let r := waitStep op waitUntil w v x
    if r.2.bt.res.isSome then some r else waitLoop op waitUntil ws r.1 r.2

/-- Modelled from the spec: `BundlePrivate::StartFailed` is not in the source
tree.  It is the clean-up of a failed start: the bundle goes from `STARTING`
back to `RESOLVED` and its activator instance is dropped. -/
def StartFailed (x : ThreadWorld) : ThreadWorld :=
  ({ x with b := { x.b with state := .STATE_RESOLVED, bactivator := false } }).record .startFailed

/-- Modelled from the spec: `BundlePrivate::Stop2` is not in the source tree.
It concludes a stop: the bundle lands in `RESOLVED`. -/
def Stop2 (x : ThreadWorld) : ThreadWorld :=
  ({ x with b := { x.b with state := .STATE_RESOLVED } }).record .stop2

/-- `BundleThread::Quit`: `doRun = false`, wake the worker, join its thread. -/
def Quit (x : ThreadWorld) : ThreadWorld :=
  ({ x with bt := { x.bt with doRun := false } }).record .quit

/-- The value of `res.Get()` once the slot is set. -/
def ThreadWorld.getRes (x : ThreadWorld) : Option Exc :=
  x.bt.res.getD none

/-- The part of `StartAndWait` after the wait loop. -/
def afterWait (op : Int) (v : WaitVars) (x : ThreadWorld) : Option Exc × ThreadWorld :=
  if x.b.aborted = .NONE ∧ (v.timeout ∨ v.uninstall) then
    let x1 := { x with b := { x.b with aborted := .YES } }
    let opType := if op = OP_START then "start" else "stop"
    let reason :=
      if v.timeout then "Time-out during bundle " ++ opType ++ "()"
      else "Bundle uninstalled during " ++ opType ++ "()"
    let x2 :=
      if v.timeout then
        if op = OP_START then StartFailed x1
        else Stop2 (({ x1 with b := { x1.b with bactivator := false } }).record .bactivatorReset)
      else x1
    let x3 := Quit x2
    let x4 := x3.setRes (some (.runtime_error
      ("Bundle#" ++ toString x3.b.id ++ " " ++ opType ++ " failed with reason: " ++ reason)))
    let x5 := x4.record .resetBundleThread
    (x5.getRes, x5)
  else
    let x1 := ({ x with live := x.bt.self :: x.live }).record .pushFront
    let x2 := x1.record .resetBundleThread
    (x2.getRes, x2)

/-- The part of `StartAndWait` before the wait loop: `res.UnSet()`, the
publication of `bundle` and `operation`, `NotifyAll()`, and for start/stop the
store of `Aborted::NO` into `b->aborted`. -/
def beforeWait (op : Int) (x : ThreadWorld) : ThreadWorld :=
  let x1 := { x with bt := { x.bt with res := none } }
  let x2 := ({ x1 with bt := { x1.bt with bundle := some x1.b.id, operation := op } }).record
    .notifyAll
  if op = OP_START ∨ op = OP_STOP then { x2 with b := { x2.b with aborted := .NO } } else x2

/-- The initial value of the local `left`. -/
def initialLeft (op : Int) (x : ThreadWorld) : Int :=
  if op = OP_START ∨ op = OP_STOP then x.bt.startStopTimeout else 0

/-- The wait loop of `StartAndWait` as the call runs it: the locals start
as `left`, `false`, `false`, and `waitUntil` is `Clock::now() + left`. -/
def runWait (op t0 : Int) (wakes : List Wake) (x : ThreadWorld) :
    Option (WaitVars × ThreadWorld) :=
  waitLoop op (t0 + initialLeft op x) wakes ⟨initialLeft op x, false, false⟩ (beforeWait op x)

/-- `BundleThread::StartAndWait(b, op, resolveLock)`.  `t0` is the reading of
`Clock::now()` before the loop and `wakes` the successive returns of the
wait; the result is `none` when the call never returns. -/
def StartAndWait (op t0 : Int) (wakes : List Wake) (x : ThreadWorld) :
    Option (Option Exc × ThreadWorld) :=
  match runWait op t0 wakes x with
  | none => none
  | some (v, x4) => some (afterWait op v x4)

/-- `BundleThread::CallStart0`. -/
def CallStart0 (t0 : Int) (wakes : List Wake) (x : ThreadWorld) :
    Option (Option Exc × ThreadWorld) :=
  StartAndWait OP_START t0 wakes x

/-- `BundleThread::CallStop1`. -/
def CallStop1 (t0 : Int) (wakes : List Wake) (x : ThreadWorld) :
    Option (Option Exc × ThreadWorld) :=
  StartAndWait OP_STOP t0 wakes x

/-- `BundleThread::BundleChanged(be, resolveLock)`: the event is stored, then
`StartAndWait` runs with `OP_BUNDLE_EVENT` on the bundle of the event (which
is `x.b`); its result is dropped. -/
def BundleChanged (be : BundleEvent) (t0 : Int) (wakes : List Wake) (x : ThreadWorld) :
    Option ThreadWorld :=
  (StartAndWait OP_BUNDLE_EVENT t0 wakes { x with bt := { x.bt with be := some be } }).map
    fun r => r.2

/-- How the call that the worker makes for an operation ends: it returns (an
exception pointer for `Start0` and `Stop1`, nothing for the listeners), or it
throws.  What the call does to the bundle is outside the source tree. -/
inductive Outcome where
  | returned (r : Option Exc)
  | thrown (e : Exc)
  deriving DecidableEq

/-- The statements `operation = OP_IDLE; res.Set(tmpres);` of `Run`. -/
def publish (tmpres : Option Exc) (x : ThreadWorld) : ThreadWorld :=
  { x with bt := { x.bt with operation := OP_IDLE, res := some tmpres } }

/-- The call selected by `switch (operation.load())` in `Run`, `none` when no
`case` matches. -/
def selectedCall (op : Int) : Option ThreadCall :=
  if op = OP_BUNDLE_EVENT then some .listenersBundleChanged
  else if op = OP_START then some .start0
  else if op = OP_STOP then some .stop1
  else none

/-- The dispatch in `Run`: `tmpres` starts null, the `try` block makes the
call selected by the opcode and stores what `Start0` or `Stop1` return, the
handler `catch (const std::exception&)` logs, and the result is published.
An object that is not a `std::exception` leaves the dispatch. -/
def dispatch (o : Outcome) (x : ThreadWorld) : Res ThreadWorld :=
  match selectedCall x.bt.operation with
  | none => .ok (publish none x)
  | some c =>
    let x1 := x.record c
    match o with
    | .returned r => .ok (publish (if x.bt.operation = OP_BUNDLE_EVENT then none else r) x1)
    | .thrown e =>
      if e.isStd then .ok (publish none (x1.record (.logError e.what)))
      else .throw e x1

/-- One return of `WaitFor(l, KEEP_ALIVE)` in `Run`, with what the callers did
while the worker slept: `quit` when `Quit` cleared `doRun`, `request` when
`StartAndWait` published an opcode and a bundle. -/
structure IdleWake where
  quit : Bool
  request : Option (Int × Nat)
  deriving DecidableEq

/-- The effect of the callers during one idle wait. -/
def applyIdleWake (w : IdleWake) (x : ThreadWorld) : ThreadWorld :=
  let x1 := if w.quit then { x with bt := { x.bt with doRun := false } } else x
  match w.request with
  | some (op, b) =>
    { x1 with bt := { x1.bt with res := none, bundle := some b, operation := op } }
  | none => x1

/-- Where the worker is when a part of `Run` ends. -/
inductive RunEnd where
  | returned (x : ThreadWorld)
  | escaped (e : Exc) (x : ThreadWorld)
  | waiting (x : ThreadWorld)
  | ready (x : ThreadWorld)
  deriving DecidableEq

/-- The inner loop `while (doRun && operation == OP_IDLE)` of `Run`: `returned`
when `Run` returns (quit, or retirement into `zombies`), `ready` when the
loop is left, `waiting` when the wake-ups run out inside the loop. -/
def idleLoop : List IdleWake → ThreadWorld → RunEnd
  | [], x => if x.bt.doRun = true ∧ x.bt.operation = OP_IDLE then .waiting x else .ready x
  | w :: rest, x =>
    if x.bt.doRun = true ∧ x.bt.operation = OP_IDLE then
      let x1 := applyIdleWake w (x.record .waitKeepAlive)
      if x1.bt.doRun = false then .returned x1
      else if x1.bt.operation ≠ OP_IDLE then .ready x1
      else if x1.bt.self ∈ x1.live then
        .returned { x1 with zombies := x1.zombies ++ [x1.bt.self],
                            live := x1.live.erase x1.bt.self }
      else idleLoop rest x1
    else .ready x

/-- One pass of the outer loop of `Run` needs the wake-ups of its idle wait
and the outcome of its dispatch. -/
structure Round where
  idle : List IdleWake
  outcome : Outcome
  deriving DecidableEq

/-- `BundleThread::Run`: `while (doRun)`, the idle wait, `if (!doRun) return;`,
the dispatch, `fwCtx->resolver.NotifyAll()`.  `escaped` when an exception
leaves the thread function, `waiting` when the rounds run out. -/
def Run : List Round → ThreadWorld → RunEnd
  | [], x => if x.bt.doRun = true then .waiting x else .returned x
  | r :: rest, x =>
    if x.bt.doRun = true then
      match idleLoop r.idle x with
      | .ready x1 =>
        if x1.bt.doRun = false then .returned x1
        else
          match dispatch r.outcome x1 with
          | .ok x2 => Run rest (x2.record .resolverNotifyAll)
          | .throw e x2 => .escaped e x2
      | other => other
    else .returned x

/-! ## Concrete inputs used by the evaluations below -/

/-- A worker with a 50 ms start/stop budget and a bundle that has just
entered `STARTING`. -/
def startingWorld : ThreadWorld :=
  { bt := { self := 7, startStopTimeout := 50, bundle := none, operation := OP_IDLE,
            doRun := true, res := none },
    b := { id := 1, state := .STATE_STARTING, aborted := .NONE, bactivator := true },
    live := [], zombies := [], trace := [] }

/-- The activator is still inside `start` when the budget of 50 ms is used up:
the caller wakes at 50 ms, the bundle is in `STARTING`, nothing was published. -/
def timeoutWakes : List Wake :=
  [{ now := 50, state := .STATE_STARTING, aborted := none, done := none }]

/-- The bundle is uninstalled 10 ms into the start. -/
def uninstallWakes : List Wake :=
  [{ now := 10, state := .STATE_UNINSTALLED, aborted := none, done := none }]

/-- Collaborators that never throw; `Stop` moves the bundle to `RESOLVED`, the
snapshot holds the bundles in `ACTIVE` or `STARTING`. -/
def calmEnv : Collab :=
  { waitOnOperation := none, coreInit := none, bundleChanged := none,
    getActiveBundles := fun bs =>
      (bs.filter fun b => b.state = .STATE_ACTIVE ∨ b.state = .STATE_STARTING).map fun b => b.id,
    stop := fun id bs =>
      (bs.map fun b => if b.id = id then { b with state := .STATE_RESOLVED } else b, none),
    uninit0 := none, uninit1 := none, start := none }

/-- An active framework with two active bundles and no shutdown thread. -/
def activeFw : FrameworkPrivate :=
  { state := .STATE_ACTIVE, operation := .OP_IDLE, stopEvent := ⟨false, .ERROR, none⟩,
    shutdownThread := none,
    bundles := [⟨1, .STATE_ACTIVE, .NONE, true⟩, ⟨2, .STATE_ACTIVE, .NONE, true⟩],
    trace := [] }

/-- An active framework whose shutdown thread of an earlier update (restart)
has not been joined: the thread object is still joinable. -/
def restartedFw : FrameworkPrivate :=
  { activeFw with shutdownThread := some (true, true),
                  stopEvent := ⟨true, .STOPPED_UPDATE, none⟩ }

/-- A framework in `STARTING` (initialised, not yet started). -/
def startingFw : FrameworkPrivate :=
  { activeFw with state := .STATE_STARTING }

/-- Collaborators of which only `coreCtx->Init()` throws. -/
def initFailEnv : Collab :=
  { calmEnv with coreInit := some (.runtime_error "init failed") }

/-- Collaborators in which `Stop` of bundle 2 throws an object that is not a
`std::exception`; every other call behaves as in `calmEnv`. -/
def otherThrowEnv : Collab :=
  { calmEnv with
    stop := fun id bs => if id = 2 then (bs, some .other) else calmEnv.stop id bs }

/-- Collaborators in which `Stop` of bundle 2 throws a `std::runtime_error`. -/
def stdThrowEnv : Collab :=
  { calmEnv with
    stop := fun id bs =>
      if id = 2 then (bs, some (.runtime_error "stop failed")) else calmEnv.stop id bs }

/-- A stopped framework whose last shutdown was an update. -/
def stoppedFw : FrameworkPrivate :=
  { activeFw with state := .STATE_RESOLVED, stopEvent := ⟨true, .STOPPED_UPDATE, none⟩ }

/-- The shutdown path publishes `STOPPED` 500 ms into the wait. -/
def lateArrival : Option (Nat × EventType × Option Exc) :=
  some (500, .STOPPED, none)

/-- The shutdown path publishes `STOPPED` 20 ms into the wait. -/
def earlyArrival : Option (Nat × EventType × Option Exc) :=
  some (20, .STOPPED, none)

/-- The shutdown path publishes `ERROR` with a cause 20 ms into the wait. -/
def errorArrival : Option (Nat × EventType × Option Exc) :=
  some (20, .ERROR, some (.runtime_error "uninit failed"))

/-- The active framework after a wait of 100 ms during which `ERROR` with a
cause was published. -/
def afterErrorArrival : FrameworkPrivate :=
  { activeFw with
    state := .STATE_RESOLVED,
    stopEvent := ⟨true, .ERROR, some (.runtime_error "uninit failed")⟩,
    trace := [.setStopEvent ⟨false, .ERROR, none⟩, .waitStopEvent 100, .notifyAll,
              .setStopEvent ⟨true, .ERROR, some (.runtime_error "uninit failed")⟩] }

/-- The active framework after a wait of 100 ms that timed out. -/
def afterTimeout : FrameworkPrivate :=
  { activeFw with
    stopEvent := ⟨false, .ERROR, none⟩,
    trace := [.setStopEvent ⟨false, .ERROR, none⟩, .waitStopEvent 100] }

/-- The active framework after a wait during which `STOPPED` was published. -/
def afterArrival (timeout : Int) : FrameworkPrivate :=
  { activeFw with
    state := .STATE_RESOLVED,
    stopEvent := ⟨true, .STOPPED, none⟩,
    trace := [.setStopEvent ⟨false, .ERROR, none⟩, .waitStopEvent timeout, .notifyAll,
              .setStopEvent ⟨true, .STOPPED, none⟩] }

/-- A worker that has been handed the start of bundle 1 and has not yet
published a result. -/
def pendingStart : ThreadWorld :=
  { bt := { self := 7, startStopTimeout := 50, bundle := some 1, operation := OP_START,
            doRun := true, res := none },
    b := { id := 1, state := .STATE_STARTING, aborted := .NO, bactivator := true },
    live := [], zombies := [], trace := [] }

/-- Two wake-ups, one and a half hours apart, before the listeners are done. -/
def slowWakes : List Wake :=
  [{ now := 3600000, state := .STATE_STARTING, aborted := none, done := none },
   { now := 9000000, state := .STATE_STARTING, aborted := none, done := some none }]

/-- The world of `startingWorld` after `BundleChanged` returned on `slowWakes`. -/
def afterEvent : ThreadWorld :=
  { bt := { self := 7, startStopTimeout := 50, bundle := some 1, operation := OP_IDLE,
            doRun := true, res := some none },
    b := { id := 1, state := .STATE_STARTING, aborted := .NONE, bactivator := true },
    live := [7], zombies := [],
    trace := [.notifyAll, .waitFor 0, .waitFor 0, .pushFront, .resetBundleThread] }

/-- A worker without start/stop budget (`startStopTimeout == 0`). -/
def unboundedWorld : ThreadWorld :=
  { startingWorld with bt := { startingWorld.bt with startStopTimeout := 0 } }

/-- The world of `unboundedWorld` after a start returned on `slowWakes`. -/
def afterUnboundedStart : ThreadWorld :=
  { bt := { self := 7, startStopTimeout := 0, bundle := some 1, operation := OP_IDLE,
            doRun := true, res := some none },
    b := { id := 1, state := .STATE_STARTING, aborted := .NO, bactivator := true },
    live := [7], zombies := [],
    trace := [.notifyAll, .waitFor 0, .waitFor 0, .pushFront, .resetBundleThread] }

/-- The locals and the world at the end of the wait loop of the start of
`startingWorld` on `timeoutWakes`. -/
def timedOutWait : WaitVars × ThreadWorld :=
  (⟨0, true, false⟩,
   { bt := { self := 7, startStopTimeout := 50, bundle := some 1, operation := OP_START,
             doRun := true, res := some none },
     b := { id := 1, state := .STATE_STARTING, aborted := .NO, bactivator := true },
     live := [], zombies := [], trace := [.notifyAll, .waitFor 50] })

/-! ## Theorems -/

/-- C1: evaluation of `StartAndWait` at a start that times out.  The wait loop
sets its timeout flag (the budget of 50 ms is used up and the bundle is still
`STARTING`), yet the call returns a null exception pointer, the abort flag is
`NO`, `StartFailed` and `Quit` did not run (state `STARTING`, `doRun` true)
and the worker was pushed to the front of the live pool. -/
theorem StartAndWait_timeout_eval :
    (runWait OP_START 0 timeoutWakes startingWorld).map (fun r => r.1.timeout) = some true ∧
    StartAndWait OP_START 0 timeoutWakes startingWorld =
      some (none,
        { bt := { self := 7, startStopTimeout := 50, bundle := some 1, operation := OP_START,
                  doRun := true, res := some none },
          b := { id := 1, state := .STATE_STARTING, aborted := .NO, bactivator := true },
          live := [7], zombies := [],
          trace := [.notifyAll, .waitFor 50, .pushFront, .resetBundleThread] }) := by
  decide

/-- C2: evaluation of `StartAndWait` at a start during which the bundle is
uninstalled.  The wait loop sets its uninstall flag, yet the call returns a
null exception pointer instead of the error that names the uninstall, and
the worker is pushed to the front of the live pool. -/
theorem StartAndWait_uninstall_eval :
    (runWait OP_START 0 uninstallWakes startingWorld).map (fun r => r.1.uninstall) = some true ∧
    StartAndWait OP_START 0 uninstallWakes startingWorld =
      some (none,
        { bt := { self := 7, startStopTimeout := 50, bundle := some 1, operation := OP_START,
                  doRun := true, res := some none },
          b := { id := 1, state := .STATE_UNINSTALLED, aborted := .NO, bactivator := true },
          live := [7], zombies := [],
          trace := [.notifyAll, .waitFor 50, .pushFront, .resetBundleThread] }) := by
  decide

/-- C3: `Init`, once no other operation is pending.  From `INSTALLED` or
`RESOLVED` the state becomes `STARTING` and the core context is initialised
(one call, whose outcome is the outcome of `Init`); from `STARTING` or
`ACTIVE` it returns normally with the state unchanged and without a call
to the core context; from `STOPPING` or `UNINSTALLED` it throws the
illegal-state `logic_error` and leaves the state unchanged. -/
theorem Init_by_state (env : Collab) (fw : FrameworkPrivate)
    (h : fw.operation = .OP_IDLE ∨ env.waitOnOperation = none) :
    match fw.state with
    | .STATE_INSTALLED | .STATE_RESOLVED =>
      (Init env fw).st.state = .STATE_STARTING ∧
      (Init env fw).st.trace = fw.trace ++ [.waitOnOperation, .coreInit] ∧
      (Init env fw).exc = env.coreInit
    | .STATE_STARTING | .STATE_ACTIVE =>
      (Init env fw).exc = none ∧
      (Init env fw).st.state = fw.state ∧
      (Init env fw).st.trace = fw.trace ++ [.waitOnOperation]
    | .STATE_STOPPING | .STATE_UNINSTALLED =>
      (Init env fw).exc =
        some (.logic_error ("INTERNAL ERROR, Illegal state, " ++ toString fw.state.bits)) ∧
      (Init env fw).st.state = fw.state ∧
      (Init env fw).st.trace = fw.trace ++ [.waitOnOperation] := by
  obtain ⟨st, op, se, th, bs, tr⟩ := fw
  have hw : WaitOnOperation env ⟨st, op, se, th, bs, tr⟩ =
      .ok ⟨st, .OP_IDLE, se, th, bs, tr ++ [.waitOnOperation]⟩ := by
    rcases h with h | h
    · simp only at h
      subst h
      simp [WaitOnOperation, FrameworkPrivate.record]
    · by_cases hop : op = .OP_IDLE
      · subst hop
        simp [WaitOnOperation, FrameworkPrivate.record]
      · simp [WaitOnOperation, FrameworkPrivate.record, hop, h]
  cases st <;> cases hc : env.coreInit <;>
    simp [Init, hw, Res.andThen, DoInit, callOut, hc, Res.st, Res.exc,
      FrameworkPrivate.record]

/-- C3, at concrete inputs: a resolved, an active and a stopping framework. -/
theorem Init_by_state_witness :
    (activeFw.operation = .OP_IDLE ∨ calmEnv.waitOnOperation = none) ∧
    ((Init calmEnv { activeFw with state := .STATE_RESOLVED }).st.state = .STATE_STARTING ∧
      (Init calmEnv { activeFw with state := .STATE_RESOLVED }).st.trace =
        [] ++ [.waitOnOperation, .coreInit] ∧
      (Init calmEnv { activeFw with state := .STATE_RESOLVED }).exc = none) ∧
    ((Init calmEnv activeFw).exc = none ∧
      (Init calmEnv activeFw).st.state = .STATE_ACTIVE ∧
      (Init calmEnv activeFw).st.trace = [] ++ [.waitOnOperation]) ∧
    ((Init calmEnv { activeFw with state := .STATE_STOPPING }).exc =
        some (.logic_error ("INTERNAL ERROR, Illegal state, " ++ toString (16 : Nat))) ∧
      (Init calmEnv { activeFw with state := .STATE_STOPPING }).st.state = .STATE_STOPPING ∧
      (Init calmEnv { activeFw with state := .STATE_STOPPING }).st.trace =
        [] ++ [.waitOnOperation]) :=
  ⟨Or.inl rfl,
    Init_by_state calmEnv { activeFw with state := .STATE_RESOLVED } (Or.inl rfl),
    Init_by_state calmEnv activeFw (Or.inl rfl),
    Init_by_state calmEnv { activeFw with state := .STATE_STOPPING } (Or.inl rfl)⟩

/-- C4, as stated, fails: with threading support two frameworks in the same
state `ACTIVE` are treated differently.  Where the shutdown thread is still
joinable `Shutdown` changes nothing and `Shutdown0` is neither run nor
started; where it is not, the thread is started. -/
theorem Shutdown_not_by_state_alone :
    restartedFw.state = activeFw.state ∧
    restartedFw.state = .STATE_ACTIVE ∧
    Shutdown true calmEnv false restartedFw = restartedFw ∧
    Shutdown true calmEnv false activeFw =
      ({ activeFw with shutdownThread := some (false, true) }).record
        (.spawnShutdown false true) := by
  decide

/-- C4, amended: `Shutdown(restart)` by framework state.  In `INSTALLED` or
`RESOLVED` the stop-event slot becomes (valid, `STOPPED`, no cause) at once,
whatever `restart` is, with the state unchanged and no step of `Shutdown0`
performed.  In `ACTIVE` or `STARTING`, without threading support `Shutdown0
(restart, wasActive)` runs in place; with threading support the shutdown
thread is started with `Shutdown0(restart, wasActive)` when no shutdown
thread is joinable, and nothing happens when one is; `wasActive` is true
exactly for `ACTIVE`.  In `STOPPING` or `UNINSTALLED` nothing changes. -/
theorem Shutdown_by_state (threading : Bool) (env : Collab) (restart : Bool)
    (fw : FrameworkPrivate) :
    match fw.state with
    | .STATE_INSTALLED | .STATE_RESOLVED =>
      (Shutdown threading env restart fw).stopEvent = ⟨true, .STOPPED, none⟩ ∧
      (Shutdown threading env restart fw).state = fw.state ∧
      (Shutdown threading env restart fw).shutdownThread = fw.shutdownThread ∧
      (Shutdown threading env restart fw).bundles = fw.bundles ∧
      (Shutdown threading env restart fw).trace =
        fw.trace ++ (if fw.state = .STATE_INSTALLED then [] else [.notifyAll])
          ++ [.setStopEvent ⟨true, .STOPPED, none⟩]
    | .STATE_ACTIVE | .STATE_STARTING =>
      Shutdown threading env restart fw =
        if threading then
          if fw.shutdownThread.isNone then
            ({ fw with shutdownThread := some (restart, decide (fw.state = State.STATE_ACTIVE)) }).record
              (.spawnShutdown restart (decide (fw.state = State.STATE_ACTIVE)))
          else fw
        else Shutdown0 env restart (decide (fw.state = State.STATE_ACTIVE)) fw
    | .STATE_STOPPING | .STATE_UNINSTALLED =>
      Shutdown threading env restart fw = fw := by
  obtain ⟨st, op, se, th, bs, tr⟩ := fw
  cases st <;>
    simp [Shutdown, launchShutdown, ShutdownDone_unlocked, SystemShuttingdownDone_unlocked,
      FrameworkPrivate.record]

/-! ### The stop-event slot during `Shutdown0` -/

theorem quiet_refl (fw : FrameworkPrivate) : Quiet fw fw :=
  ⟨rfl, rfl⟩

theorem quiet_trans {a b c : FrameworkPrivate} (h1 : Quiet a b) (h2 : Quiet b c) : Quiet a c :=
  ⟨h2.1.trans h1.1, h2.2.trans h1.2⟩

theorem quiet_record (fw : FrameworkPrivate) (c : Call) (hc : isSlotWrite c = false) :
    Quiet fw (fw.record c) := by
  simp [Quiet, FrameworkPrivate.record, slotWrites, List.countP_append, hc]

theorem quiet_andThen {fw : FrameworkPrivate} {r : Res FrameworkPrivate}
    {k : FrameworkPrivate → Res FrameworkPrivate} (hr : Quiet fw r.st)
    (hk : ∀ s, Quiet s (k s).st) : Quiet fw (r.andThen k).st := by
  cases r with
  | ok s => exact quiet_trans hr (hk s)
  | throw e s => exact hr

theorem quiet_callOut (c : Call) (hc : isSlotWrite c = false) (o : Option Exc)
    (fw : FrameworkPrivate) : Quiet fw (callOut c o fw).st := by
  cases o <;> exact quiet_record fw c hc

theorem quiet_WaitOnOperation (env : Collab) (fw : FrameworkPrivate) :
    Quiet fw (WaitOnOperation env fw).st := by
  unfold WaitOnOperation
  split
  · exact quiet_record fw _ (by rfl)
  · cases env.waitOnOperation <;> exact quiet_record fw _ (by rfl)

theorem quiet_DoInit (env : Collab) (fw : FrameworkPrivate) : Quiet fw (DoInit env fw).st := by
  unfold DoInit
  exact quiet_trans ⟨rfl, rfl⟩ (quiet_callOut _ (by rfl) _ _)

theorem quiet_Init (env : Collab) (fw : FrameworkPrivate) : Quiet fw (Init env fw).st := by
  unfold Init
  refine quiet_andThen (quiet_WaitOnOperation env fw) fun s => ?_
  split
  · exact quiet_DoInit env s
  · exact quiet_DoInit env s
  · exact quiet_refl s
  · exact quiet_refl s
  · exact quiet_refl s

theorem quiet_Start (env : Collab) (fw : FrameworkPrivate) : Quiet fw (Start env fw).st := by
  unfold Start
  refine quiet_andThen (quiet_Init env fw) fun s => ?_
  exact quiet_andThen (quiet_callOut _ (by rfl) _ _) fun s1 => ⟨rfl, rfl⟩

theorem quiet_stopOne (env : Collab) (id : Nat) (fw : FrameworkPrivate) :
    Quiet fw (stopOne env id fw).st := by
  unfold stopOne
  split
  · have h1 : Quiet fw { fw.record (.stop id) with bundles := (env.stop id fw.bundles).1 } :=
      quiet_trans (quiet_record fw _ (by rfl)) ⟨rfl, rfl⟩
    cases hr : (env.stop id fw.bundles).2 with
    | none => simpa [hr, Res.st] using h1
    | some e =>
      by_cases hs : e.isStd = true
      · simpa [hr, hs, Res.st] using quiet_trans h1 (quiet_record _ _ (by rfl))
      · simpa [hr, hs, Res.st] using h1
  · exact quiet_refl fw

theorem quiet_stopSweep (env : Collab) (ids : List Nat) (fw : FrameworkPrivate) :
    Quiet fw (stopSweep env ids fw).st := by
  induction ids generalizing fw with
  | nil => exact quiet_refl fw
  | cons id rest ih =>
    unfold stopSweep
    exact quiet_andThen (quiet_stopOne env id fw) fun s => ih s

theorem quiet_SetStateInstalled (id : Nat) (fw : FrameworkPrivate) :
    Quiet fw (SetStateInstalled id fw) := by
  unfold SetStateInstalled
  split <;> exact quiet_trans (quiet_record fw _ (by rfl)) ⟨rfl, rfl⟩

theorem quiet_installWalk (ids : List Nat) (fw : FrameworkPrivate) :
    Quiet fw (installWalk ids fw) := by
  induction ids generalizing fw with
  | nil => exact quiet_refl fw
  | cons id rest ih =>
    unfold installWalk
    split
    · exact quiet_trans (quiet_SetStateInstalled id fw) (ih _)
    · exact ih _

theorem quiet_StopAllBundles (env : Collab) (fw : FrameworkPrivate) :
    Quiet fw (StopAllBundles env fw).st := by
  unfold StopAllBundles
  exact quiet_andThen (quiet_stopSweep env _ fw) fun s => quiet_installWalk _ s

theorem quiet_shutdownSteps (env : Collab) (wasActive : Bool) (fw : FrameworkPrivate) :
    Quiet fw (shutdownSteps env wasActive fw).st := by
  unfold shutdownSteps
  refine quiet_andThen (quiet_WaitOnOperation env fw) fun s1 => ?_
  refine quiet_andThen (quiet_trans ⟨rfl, rfl⟩ (quiet_callOut _ (by rfl) _ _)) fun s2 => ?_
  refine quiet_andThen ?_ fun s3 => ?_
  · split
    · exact quiet_StopAllBundles env s2
    · exact quiet_refl s2
  · exact quiet_andThen (quiet_callOut _ (by rfl) _ _) fun s4 => quiet_callOut _ (by rfl) _ _

theorem quiet_replay (env : Collab) (restart wasActive : Bool) (fw : FrameworkPrivate) :
    Quiet fw (replay env restart wasActive fw).st := by
  unfold replay
  split
  · split
    · exact quiet_Start env fw
    · exact quiet_Init env fw
  · exact quiet_refl fw

theorem SystemShuttingdownDone_slot (fe : FrameworkEventInternal) (fw : FrameworkPrivate) :
    (SystemShuttingdownDone_unlocked fe fw).stopEvent = fe ∧
    slotWrites (SystemShuttingdownDone_unlocked fe fw).trace = slotWrites fw.trace + 1 := by
  unfold SystemShuttingdownDone_unlocked
  by_cases h : fw.state = .STATE_INSTALLED <;>
    simp [h, FrameworkPrivate.record, slotWrites, List.countP_append, isSlotWrite]

theorem ShutdownDone_slot (restart : Bool) (fw : FrameworkPrivate) :
    (ShutdownDone_unlocked restart fw).stopEvent =
      ⟨true, if restart then .STOPPED_UPDATE else .STOPPED, none⟩ ∧
    slotWrites (ShutdownDone_unlocked restart fw).trace = slotWrites fw.trace + 1 := by
  unfold ShutdownDone_unlocked
  exact SystemShuttingdownDone_slot _ fw

theorem Shutdown0_slotWrites_count (env : Collab) (restart wasActive : Bool)
    (fw : FrameworkPrivate) :
    slotWrites (Shutdown0 env restart wasActive fw).trace = slotWrites fw.trace +
      (match shutdownSteps env wasActive fw with
       | .throw _ _ => 1
       | .ok s =>
         if (replay env restart wasActive (ShutdownDone_unlocked restart s)).exc = none then 1
         else 2) := by
  have hq := quiet_shutdownSteps env wasActive fw
  unfold Shutdown0 shutdownBody
  cases hs : shutdownSteps env wasActive fw with
  | throw e s =>
    rw [hs] at hq
    simp only [Res.andThen]
    rw [(SystemShuttingdownDone_slot _ s).2]
    exact congrArg (· + 1) hq.2
  | ok s =>
    rw [hs] at hq
    simp only [Res.andThen]
    have hd := ShutdownDone_slot restart s
    have hr := quiet_replay env restart wasActive (ShutdownDone_unlocked restart s)
    cases hrep : replay env restart wasActive (ShutdownDone_unlocked restart s) with
    | ok s1 =>
      rw [hrep] at hr
      simp only [Res.exc, if_true]
      have h1 : slotWrites s1.trace = slotWrites (ShutdownDone_unlocked restart s).trace := hr.2
      have h2 : slotWrites s.trace = slotWrites fw.trace := hq.2
      omega
    | throw e s1 =>
      rw [hrep] at hr
      simp only [Res.exc]
      rw [(SystemShuttingdownDone_slot _ s1).2]
      have h1 : slotWrites s1.trace = slotWrites (ShutdownDone_unlocked restart s).trace := hr.2
      have h2 : slotWrites s.trace = slotWrites fw.trace := hq.2
      simp
      omega

/-- C5, as stated, fails: an update (`restart = true`) of a framework that
was `STARTING`, in which the replayed `Init` fails because the core context
cannot be initialised, assigns the stop-event slot twice: `STOPPED_UPDATE` by
`ShutdownDone_unlocked`, then `ERROR` by the handler `catch (...)`. -/
theorem Shutdown0_slot_assigned_twice :
    slotWrites startingFw.trace = 0 ∧
    slotWrites (Shutdown0 initFailEnv true false startingFw).trace = 2 ∧
    (Shutdown0 initFailEnv true false startingFw).trace =
      [.waitOnOperation, .bundleChanged, .uninit0, .uninit1, .notifyAll,
       .setStopEvent ⟨true, .STOPPED_UPDATE, none⟩,
       .waitOnOperation, .coreInit, .notifyAll,
       .setStopEvent ⟨true, .ERROR, some (.runtime_error "init failed")⟩] := by
  decide

/-- C5, amended: in every run of `Shutdown0(restart, wasActive)`, whichever of
the steps before the replay fail or succeed, the stop-event slot is assigned
exactly once when the replay of `Start` or `Init` does not throw, and a
second time, by the handler `catch (...)`, when it throws; in particular it is
assigned exactly once in every run with `restart = false`. -/
theorem Shutdown0_slot_assignments (env : Collab) (restart wasActive : Bool)
    (fw : FrameworkPrivate) :
    slotWrites (Shutdown0 env restart wasActive fw).trace = slotWrites fw.trace +
      (match shutdownSteps env wasActive fw with
       | .throw _ _ => 1
       | .ok s =>
         if (replay env restart wasActive (ShutdownDone_unlocked restart s)).exc = none then 1
         else 2) ∧
    slotWrites (Shutdown0 env false wasActive fw).trace = slotWrites fw.trace + 1 := by
  refine ⟨Shutdown0_slotWrites_count env restart wasActive fw, ?_⟩
  rw [Shutdown0_slotWrites_count env false wasActive fw]
  cases shutdownSteps env wasActive fw <;> simp [replay, Res.exc]

/-- C6: in every run of `Shutdown0(restart, wasActive)` whose `try` block
completes without an exception, the stop-event slot ends up valid, without
cause, and of type `STOPPED_UPDATE` when `restart` is true and `STOPPED`
when it is false. -/
theorem Shutdown0_stopEvent (env : Collab) (restart wasActive : Bool) (fw : FrameworkPrivate)
    (h : (shutdownBody env restart wasActive fw).exc = none) :
    (Shutdown0 env restart wasActive fw).stopEvent =
      ⟨true, if restart then .STOPPED_UPDATE else .STOPPED, none⟩ := by
  unfold Shutdown0
  unfold shutdownBody at h ⊢
  cases hs : shutdownSteps env wasActive fw with
  | throw e s => simp [hs, Res.andThen, Res.exc] at h
  | ok s =>
    simp only [hs, Res.andThen] at h ⊢
    have hr := quiet_replay env restart wasActive (ShutdownDone_unlocked restart s)
    cases hrep : replay env restart wasActive (ShutdownDone_unlocked restart s) with
    | throw e s1 => simp [hrep, Res.exc] at h
    | ok s1 =>
      rw [hrep] at hr
      simp only []
      exact hr.1.trans (ShutdownDone_slot restart s).1

/-- C6, at a concrete input: an update of an active framework with two active
bundles in which nothing throws. -/
theorem Shutdown0_stopEvent_witness :
    (shutdownBody calmEnv true true activeFw).exc = none ∧
    (Shutdown0 calmEnv true true activeFw).stopEvent = ⟨true, .STOPPED_UPDATE, none⟩ :=
  ⟨by decide, Shutdown0_stopEvent calmEnv true true activeFw (by decide)⟩

/-! ### `StopAllBundles` -/

/-- C7: evaluation of `StopAllBundles` at a snapshot of two active bundles
where `Stop` of bundle 2 throws an object that is not a `std::exception`.
The handler rethrows it past `catch (const std::exception&)`: the sweep ends
after the first `Stop`, bundle 1 is never stopped, no bundle is set to
`INSTALLED`, and `StopAllBundles` itself throws.  With a `std::exception`
thrown by the same `Stop` the sweep goes on and the call returns. -/
theorem StopAllBundles_other_exception_eval :
    (otherThrowEnv.getActiveBundles activeFw.bundles).reverse = [2, 1] ∧
    (StopAllBundles otherThrowEnv activeFw).exc = some .other ∧
    (StopAllBundles otherThrowEnv activeFw).st = { activeFw with trace := [.stop 2] } ∧
    (StopAllBundles stdThrowEnv activeFw).exc = none ∧
    (StopAllBundles stdThrowEnv activeFw).st.trace =
      [.stop 2, .logError "stop failed", .stop 1, .setStateInstalled 1,
       .setStateInstalled 2] := by
  decide

theorem stopSweep_returns_of_std (env : Collab)
    (hstd : ∀ id bs e, (env.stop id bs).2 = some e → e.isStd = true)
    (ids : List Nat) (fw : FrameworkPrivate) : (stopSweep env ids fw).exc = none := by
  induction ids generalizing fw with
  | nil => rfl
  | cons id rest ih =>
    unfold stopSweep stopOne
    split
    · cases hr : (env.stop id fw.bundles).2 with
      | none => simpa [hr, Res.andThen] using ih _
      | some e =>
        have := hstd id fw.bundles e hr
        simpa [hr, this, Res.andThen] using ih _
    · simpa [Res.andThen] using ih fw

theorem installWalk_fields (ids : List Nat) (fw : FrameworkPrivate) :
    (installWalk ids fw).state = fw.state ∧
    (installWalk ids fw).bundles = fw.bundles.map (fun b =>
      if b.id ≠ 0 ∧ b.id ∈ ids then { b with state := .STATE_INSTALLED } else b) ∧
    (installWalk ids fw).trace =
      fw.trace ++ (ids.filter fun i => i ≠ 0).map Call.setStateInstalled := by
  induction ids generalizing fw with
  | nil => simp [installWalk]
  | cons id rest ih =>
    unfold installWalk
    by_cases h0 : id = 0
    · subst h0
      obtain ⟨h1, h2, h3⟩ := ih fw
      refine ⟨by simpa using h1, ?_, by simpa using h3⟩
      simp only [ne_eq, not_true_eq_false, if_false]
      rw [h2]
      apply List.map_congr_left
      intro b _
      by_cases hb : b.id = 0 <;> simp [hb, eq_comm]
    · obtain ⟨h1, h2, h3⟩ := ih (SetStateInstalled id fw)
      simp only [ne_eq, h0, not_false_eq_true, if_true]
      refine ⟨?_, ?_, ?_⟩
      · rw [h1]; simp [SetStateInstalled, h0, FrameworkPrivate.record]
      · rw [h2]
        simp only [SetStateInstalled, h0, if_false, FrameworkPrivate.record, List.map_map]
        apply List.map_congr_left
        intro b _
        by_cases hb : b.id = id
        · simp [hb, h0]
        · have h0r : ¬ (0 = id) := fun h => h0 h.symm
          by_cases hb0 : b.id = 0 <;> simp [hb, hb0, h0r]
      · rw [h3]
        simp [SetStateInstalled, h0, FrameworkPrivate.record, List.filter_cons]

theorem stopOne_install_calls (env : Collab) (id i : Nat) (fw : FrameworkPrivate) :
    (stopOne env id fw).st.trace.count (.setStateInstalled i) =
      fw.trace.count (.setStateInstalled i) := by
  unfold stopOne
  split
  · cases hr : (env.stop id fw.bundles).2 with
    | none => simp [hr, Res.st, FrameworkPrivate.record]
    | some e =>
      by_cases hs : e.isStd = true <;> simp [hr, hs, Res.st, FrameworkPrivate.record]
  · rfl

theorem stopSweep_install_calls (env : Collab) (ids : List Nat) (i : Nat)
    (fw : FrameworkPrivate) :
    (stopSweep env ids fw).st.trace.count (.setStateInstalled i) =
      fw.trace.count (.setStateInstalled i) := by
  induction ids generalizing fw with
  | nil => rfl
  | cons id rest ih =>
    unfold stopSweep
    have h1 := stopOne_install_calls env id i fw
    cases hr : stopOne env id fw with
    | ok s =>
      rw [hr] at h1
      simp only [Res.andThen]
      exact (ih s).trans h1
    | throw e s =>
      rw [hr] at h1
      simpa [Res.andThen] using h1

theorem installWalk_ids (ids : List Nat) (fw : FrameworkPrivate) :
    (installWalk ids fw).bundles.map (fun b => b.id) = fw.bundles.map (fun b => b.id) := by
  rw [(installWalk_fields ids fw).2.1, List.map_map]
  apply List.map_congr_left
  intro b _
  simp only [Function.comp]
  split <;> rfl

theorem install_calls_count (t : List Call) (ids : List Nat) (i : Nat) :
    (t ++ ((0 :: ids).filter fun j => j ≠ 0).map Call.setStateInstalled).count
        (.setStateInstalled i) =
      t.count (.setStateInstalled i) + if i = 0 then 0 else ids.count i := by
  have hinj : Function.Injective Call.setStateInstalled := fun a b hab => by
    injection hab
  rw [List.count_append, List.count_map_of_injective _ _ hinj]
  by_cases hi : i = 0
  · subst hi
    simp [List.count_eq_zero]
  · have hf : ∀ l : List Nat, (l.filter fun j => decide (j ≠ 0)).count i = l.count i :=
      fun l => List.count_filter (by simp [hi])
    rw [hf]
    simp [hi, List.count_cons, Ne.symm hi]

/-- C8: whenever `StopAllBundles` completes, every bundle whose id is not 0 is
in `INSTALLED`, the walk that does so leaves the framework bundle as the sweep
left it and never calls `SetStateInstalled` on id 0, and (ids being unique
in the registry) `SetStateInstalled` is called exactly once on each bundle
whose id is not 0. -/
theorem StopAllBundles_installs (env : Collab) (fw : FrameworkPrivate)
    (h : (StopAllBundles env fw).exc = none) :
    (∀ b ∈ (StopAllBundles env fw).st.bundles, b.id ≠ 0 → b.state = .STATE_INSTALLED) ∧
    (StopAllBundles env fw).st.state =
      (stopSweep env (env.getActiveBundles fw.bundles).reverse fw).st.state ∧
    (StopAllBundles env fw).st.bundles.map (fun b => b.id) =
      (stopSweep env (env.getActiveBundles fw.bundles).reverse fw).st.bundles.map
        (fun b => b.id) ∧
    (StopAllBundles env fw).st.trace.count (.setStateInstalled 0) =
      fw.trace.count (.setStateInstalled 0) ∧
    (((StopAllBundles env fw).st.bundles.map fun b => b.id).Nodup →
      ∀ b ∈ (StopAllBundles env fw).st.bundles, b.id ≠ 0 →
        (StopAllBundles env fw).st.trace.count (.setStateInstalled b.id) =
          fw.trace.count (.setStateInstalled b.id) + 1) := by
  have hsw := fun i => stopSweep_install_calls env (env.getActiveBundles fw.bundles).reverse i fw
  unfold StopAllBundles at h ⊢
  cases hs : stopSweep env (env.getActiveBundles fw.bundles).reverse fw with
  | throw e s => simp [hs, Res.andThen, Res.exc] at h
  | ok mid =>
    simp only [hs, Res.st] at hsw
    simp only [Res.andThen, Res.st]
    obtain ⟨h1, h2, h3⟩ := installWalk_fields (GetBundles mid) mid
    have hids := installWalk_ids (GetBundles mid) mid
    refine ⟨?_, h1, hids, ?_, ?_⟩
    · intro b hb hb0
      rw [h2, List.mem_map] at hb
      obtain ⟨b0, hb0mem, hbeq⟩ := hb
      by_cases hz : b0.id = 0
      · simp only [hz, ne_eq, not_true_eq_false, false_and, if_false] at hbeq
        exact absurd (hbeq ▸ hz) hb0
      · have hm : b0.id ∈ GetBundles mid := by
          unfold GetBundles
          exact List.mem_cons_of_mem _ (List.mem_map_of_mem (fun b => b.id) hb0mem)
        simp only [ne_eq, hz, not_false_eq_true, hm, and_self, if_true] at hbeq
        rw [← hbeq]
    · rw [h3]
      unfold GetBundles
      rw [install_calls_count, hsw 0]
      simp
    · intro hnd b hb hb0
      rw [hids] at hnd
      have hmem : b.id ∈ mid.bundles.map (fun b => b.id) := by
        rw [← hids]
        exact List.mem_map_of_mem (fun b => b.id) hb
      rw [h3]
      unfold GetBundles
      rw [install_calls_count, hsw b.id, if_neg hb0, List.count_eq_one_of_mem hnd hmem]

/-- C8, at a concrete input: two active bundles, nothing throws. -/
theorem StopAllBundles_installs_witness :
    (StopAllBundles calmEnv activeFw).exc = none ∧
    (∀ b ∈ (StopAllBundles calmEnv activeFw).st.bundles,
      b.id ≠ 0 → b.state = .STATE_INSTALLED) ∧
    (StopAllBundles calmEnv activeFw).st.state = .STATE_ACTIVE ∧
    (StopAllBundles calmEnv activeFw).st.trace =
      [.stop 2, .stop 1, .setStateInstalled 1, .setStateInstalled 2] ∧
    ((StopAllBundles calmEnv activeFw).st.bundles.map fun b => b.id).Nodup ∧
    (StopAllBundles calmEnv activeFw).st.trace.count (.setStateInstalled 2) = 0 + 1 :=
  ⟨by decide, (StopAllBundles_installs calmEnv activeFw (by decide)).1, by decide, by decide,
    by decide,
    (StopAllBundles_installs calmEnv activeFw (by decide)).2.2.2.2 (by decide)
      ⟨2, .STATE_INSTALLED, .NONE, true⟩ (by decide) (by decide)⟩

/-! ### `WaitForStop` -/

theorem stopped_mask (s : State) :
    ((State.STATE_INSTALLED.bits ||| State.STATE_RESOLVED.bits) &&& s.bits = 0) ↔
      (s ≠ .STATE_INSTALLED ∧ s ≠ .STATE_RESOLVED) := by
  cases s <;> decide

/-- C9: for a stopped framework (`INSTALLED` or `RESOLVED`) `WaitForStop`
returns, does not wait on the stop-event slot, and its result is the same for
all time-outs (and whatever the shutdown path would publish): the recorded
type and cause when the slot is valid, a `STOPPED` event without cause when
it is not. -/
theorem WaitForStop_stopped (fw : FrameworkPrivate) (t1 t2 : Int)
    (a1 a2 : Option (Nat × EventType × Option Exc))
    (h : fw.state = .STATE_INSTALLED ∨ fw.state = .STATE_RESOLVED) :
    WaitForStop t1 a1 fw = WaitForStop t2 a2 fw ∧
    ∃ fw1, WaitForStop t1 a1 fw =
        some (if fw.stopEvent.valid then ⟨fw.stopEvent.type, fw.stopEvent.excPtr⟩
              else ⟨.STOPPED, none⟩, fw1) ∧
      fw1.state = fw.state ∧
      ∀ t, Call.waitStopEvent t ∈ fw1.trace → Call.waitStopEvent t ∈ fw.trace := by
  obtain ⟨st, op, se, th, bs, tr⟩ := fw
  obtain ⟨v, ty, ex⟩ := se
  simp only at h
  rcases h with h | h <;> subst h <;> cases v <;> cases th <;>
    simp [WaitForStop, State.bits, joinAndReturn, joinShutdownThread, FrameworkPrivate.record]

/-- C9, at a concrete input: a stopped framework with a recorded update,
time-out 0 against a huge time-out. -/
theorem WaitForStop_stopped_witness :
    (stoppedFw.state = .STATE_INSTALLED ∨ stoppedFw.state = .STATE_RESOLVED) ∧
    WaitForStop 0 none stoppedFw =
      WaitForStop 100000000 (some (5, .ERROR, none)) stoppedFw ∧
    WaitForStop 0 none stoppedFw = some (⟨.STOPPED_UPDATE, none⟩, stoppedFw) :=
  ⟨Or.inr rfl,
    (WaitForStop_stopped stoppedFw 0 100000000 none (some (5, .ERROR, none)) (Or.inr rfl)).1,
    by decide⟩

theorem waitForStop_paths (fw : FrameworkPrivate) (timeout : Int)
    (arrival : Option (Nat × EventType × Option Exc)) :
    (WaitForStop timeout arrival fw = none ↔
      (timeout = 0 ∧ isStopped fw = false ∧ arrival = none)) ∧
    ∀ ev fw1, WaitForStop timeout arrival fw = some (ev, fw1) →
      ((isStopped fw = false ∧ timerExpired timeout arrival = true) →
        ev = ⟨.WAIT_TIMEDOUT, none⟩ ∧ fw1.stopEvent.valid = false ∧
        Call.waitStopEvent timeout ∈ fw1.trace) ∧
      (¬ (isStopped fw = false ∧ timerExpired timeout arrival = true) →
        ev = ⟨fw1.stopEvent.type, fw1.stopEvent.excPtr⟩ ∧ fw1.stopEvent.valid = true) ∧
      (timeout = 0 →
        ev = ⟨fw1.stopEvent.type, fw1.stopEvent.excPtr⟩ ∧ fw1.stopEvent.valid = true) ∧
      ((fw.stopEvent.valid = true → fw.stopEvent.type ≠ .WAIT_TIMEDOUT) →
        (∀ t ty ex, arrival = some (t, ty, ex) → ty ≠ .WAIT_TIMEDOUT) →
        (ev.type = .WAIT_TIMEDOUT ↔
          (isStopped fw = false ∧ timerExpired timeout arrival = true))) := by
  obtain ⟨st, op, se, th, bs, tr⟩ := fw
  obtain ⟨v, ty, ex⟩ := se
  rcases arrival with _ | ⟨t, aty, aex⟩
  · by_cases h0 : timeout = 0
    · subst h0
      cases st <;> cases v <;> cases th <;>
        simp [WaitForStop, waitStopEvent, stopped_mask, joinAndReturn, joinShutdownThread,
          FrameworkPrivate.record, isStopped, timerExpired]
    · cases st <;> cases v <;> cases th <;>
        simp [WaitForStop, waitStopEvent, stopped_mask, joinAndReturn, joinShutdownThread,
          FrameworkPrivate.record, isStopped, timerExpired, h0]
  · by_cases h0 : timeout = 0
    · subst h0
      cases st <;> cases v <;> cases th <;>
        simp [WaitForStop, waitStopEvent, stopped_mask, joinAndReturn, joinShutdownThread,
          FrameworkPrivate.record, isStopped, timerExpired, SystemShuttingdownDone_unlocked] <;>
        tauto
    · by_cases ht : (t : Int) ≤ timeout
      · have ht2 : ¬ (timeout < (t : Int)) := not_lt.mpr ht
        cases st <;> cases v <;> cases th <;>
          simp [WaitForStop, waitStopEvent, stopped_mask, joinAndReturn, joinShutdownThread,
            FrameworkPrivate.record, isStopped, timerExpired, SystemShuttingdownDone_unlocked,
            h0, ht, ht2] <;>
          tauto
      · have ht2 : timeout < (t : Int) := not_le.mp ht
        cases st <;> cases v <;> cases th <;>
          simp [WaitForStop, waitStopEvent, stopped_mask, joinAndReturn, joinShutdownThread,
            FrameworkPrivate.record, isStopped, timerExpired, SystemShuttingdownDone_unlocked,
            h0, ht, ht2] <;>
          tauto


theorem waitForStop_pinned (fw : FrameworkPrivate) (timeout : Int)
    (arrival : Option (Nat × EventType × Option Exc)) :
    ∀ ev fw1, WaitForStop timeout arrival fw = some (ev, fw1) →
      (isStopped fw = true →
        ev = (if fw.stopEvent.valid then ⟨fw.stopEvent.type, fw.stopEvent.excPtr⟩
              else ⟨.STOPPED, none⟩) ∧
        fw1.stopEvent = (if fw.stopEvent.valid then fw.stopEvent
                         else ⟨true, .STOPPED, none⟩)) ∧
      (isStopped fw = false → ∀ t ty ex, arrival = some (t, ty, ex) →
        (timeout = 0 ∨ (t : Int) ≤ timeout) →
        ev = ⟨ty, ex⟩ ∧ fw1.stopEvent = ⟨true, ty, ex⟩) := by
  obtain ⟨st, op, se, th, bs, tr⟩ := fw
  obtain ⟨v, ty, ex⟩ := se
  rcases arrival with _ | ⟨t, aty, aex⟩
  · by_cases h0 : timeout = 0
    · subst h0
      cases st <;> cases v <;> cases th <;>
        simp [WaitForStop, waitStopEvent, stopped_mask, joinAndReturn, joinShutdownThread,
          FrameworkPrivate.record, isStopped]
    · cases st <;> cases v <;> cases th <;>
        simp [WaitForStop, waitStopEvent, stopped_mask, joinAndReturn, joinShutdownThread,
          FrameworkPrivate.record, isStopped, h0]
  · by_cases hin : timeout = 0 ∨ (t : Int) ≤ timeout
    · cases st <;> cases v <;> cases th <;>
        simp [WaitForStop, waitStopEvent, stopped_mask, joinAndReturn, joinShutdownThread,
          FrameworkPrivate.record, isStopped, SystemShuttingdownDone_unlocked, hin]
    · cases st <;> cases v <;> cases th <;>
        simp [WaitForStop, waitStopEvent, stopped_mask, joinAndReturn, joinShutdownThread,
          FrameworkPrivate.record, isStopped, SystemShuttingdownDone_unlocked, hin]

/-- C10: `WaitForStop` for every framework state, time-out and behaviour of
the shutdown path.  It fails to return only when it waits without bound
(time-out 0, framework not stopped) and nothing is ever published.  When it
waited and the timer expired with no valid event in the slot it returns
`WAIT_TIMEDOUT` without cause; in every other case it returns the type and
cause recorded in the (valid) slot, in particular always when the time-out
is 0.  As long as no recorded event has type `WAIT_TIMEDOUT` itself, the
returned type is `WAIT_TIMEDOUT` exactly in the first case.  The recorded
event is pinned: for a stopped framework it is the slot as found on entry
(`STOPPED` without cause when that slot is not valid), and after a wait it
is the very type and cause that the shutdown path published in time. -/
theorem WaitForStop_result (fw : FrameworkPrivate) (timeout : Int)
    (arrival : Option (Nat × EventType × Option Exc)) :
    (WaitForStop timeout arrival fw = none ↔
      (timeout = 0 ∧ isStopped fw = false ∧ arrival = none)) ∧
    ∀ ev fw1, WaitForStop timeout arrival fw = some (ev, fw1) →
      ((isStopped fw = false ∧ timerExpired timeout arrival = true) →
        ev = ⟨.WAIT_TIMEDOUT, none⟩ ∧ fw1.stopEvent.valid = false ∧
        Call.waitStopEvent timeout ∈ fw1.trace) ∧
      (¬ (isStopped fw = false ∧ timerExpired timeout arrival = true) →
        ev = ⟨fw1.stopEvent.type, fw1.stopEvent.excPtr⟩ ∧ fw1.stopEvent.valid = true) ∧
      (timeout = 0 →
        ev = ⟨fw1.stopEvent.type, fw1.stopEvent.excPtr⟩ ∧ fw1.stopEvent.valid = true) ∧
      ((fw.stopEvent.valid = true → fw.stopEvent.type ≠ .WAIT_TIMEDOUT) →
        (∀ t ty ex, arrival = some (t, ty, ex) → ty ≠ .WAIT_TIMEDOUT) →
        (ev.type = .WAIT_TIMEDOUT ↔
          (isStopped fw = false ∧ timerExpired timeout arrival = true))) ∧
      (isStopped fw = true →
        ev = (if fw.stopEvent.valid then ⟨fw.stopEvent.type, fw.stopEvent.excPtr⟩
              else ⟨.STOPPED, none⟩) ∧
        fw1.stopEvent = (if fw.stopEvent.valid then fw.stopEvent
                         else ⟨true, .STOPPED, none⟩)) ∧
      (isStopped fw = false → ∀ t ty ex, arrival = some (t, ty, ex) →
        (timeout = 0 ∨ (t : Int) ≤ timeout) →
        ev = ⟨ty, ex⟩ ∧ fw1.stopEvent = ⟨true, ty, ex⟩) :=
  ⟨(waitForStop_paths fw timeout arrival).1, fun ev fw1 h =>
    ⟨((waitForStop_paths fw timeout arrival).2 ev fw1 h).1,
      ((waitForStop_paths fw timeout arrival).2 ev fw1 h).2.1,
      ((waitForStop_paths fw timeout arrival).2 ev fw1 h).2.2.1,
      ((waitForStop_paths fw timeout arrival).2 ev fw1 h).2.2.2,
      (waitForStop_pinned fw timeout arrival ev fw1 h).1,
      (waitForStop_pinned fw timeout arrival ev fw1 h).2⟩⟩

/-- C10, at concrete inputs: an active framework waiting 100 ms for an event
published after 500 ms (time-out), after 20 ms (recorded event), and waiting
without bound (recorded event); the same framework receiving `ERROR` with a
cause after 20 ms; and a stopped framework whose slot holds `STOPPED_UPDATE`. -/
theorem WaitForStop_result_witness :
    (WaitForStop 100 lateArrival activeFw = some (⟨.WAIT_TIMEDOUT, none⟩, afterTimeout) ∧
      (isStopped activeFw = false ∧ timerExpired 100 lateArrival = true) ∧
      ((⟨.WAIT_TIMEDOUT, none⟩ : FrameworkEvent) = ⟨.WAIT_TIMEDOUT, none⟩ ∧
        afterTimeout.stopEvent.valid = false ∧
        Call.waitStopEvent 100 ∈ afterTimeout.trace)) ∧
    (WaitForStop 100 earlyArrival activeFw = some (⟨.STOPPED, none⟩, afterArrival 100) ∧
      ¬ (isStopped activeFw = false ∧ timerExpired 100 earlyArrival = true) ∧
      ((⟨.STOPPED, none⟩ : FrameworkEvent) =
          ⟨(afterArrival 100).stopEvent.type, (afterArrival 100).stopEvent.excPtr⟩ ∧
        (afterArrival 100).stopEvent.valid = true)) ∧
    (WaitForStop 0 lateArrival activeFw = some (⟨.STOPPED, none⟩, afterArrival 0) ∧
      ((⟨.STOPPED, none⟩ : FrameworkEvent) =
          ⟨(afterArrival 0).stopEvent.type, (afterArrival 0).stopEvent.excPtr⟩ ∧
        (afterArrival 0).stopEvent.valid = true)) ∧
    ((activeFw.stopEvent.valid = true → activeFw.stopEvent.type ≠ .WAIT_TIMEDOUT) ∧
      (∀ t ty ex, lateArrival = some (t, ty, ex) → ty ≠ .WAIT_TIMEDOUT) ∧
      ((⟨.WAIT_TIMEDOUT, none⟩ : FrameworkEvent).type = .WAIT_TIMEDOUT ↔
        (isStopped activeFw = false ∧ timerExpired 100 lateArrival = true))) ∧
    (WaitForStop 100 errorArrival activeFw =
        some (⟨.ERROR, some (.runtime_error "uninit failed")⟩, afterErrorArrival) ∧
      isStopped activeFw = false ∧
      ((100 : Int) = 0 ∨ ((20 : Nat) : Int) ≤ 100) ∧
      ((⟨.ERROR, some (.runtime_error "uninit failed")⟩ : FrameworkEvent) =
          ⟨.ERROR, some (.runtime_error "uninit failed")⟩ ∧
        afterErrorArrival.stopEvent = ⟨true, .ERROR, some (.runtime_error "uninit failed")⟩)) ∧
    (WaitForStop 100 lateArrival stoppedFw = some (⟨.STOPPED_UPDATE, none⟩, stoppedFw) ∧
      isStopped stoppedFw = true ∧
      ((⟨.STOPPED_UPDATE, none⟩ : FrameworkEvent) =
          (if stoppedFw.stopEvent.valid then
            ⟨stoppedFw.stopEvent.type, stoppedFw.stopEvent.excPtr⟩
          else ⟨.STOPPED, none⟩) ∧
        stoppedFw.stopEvent =
          (if stoppedFw.stopEvent.valid then stoppedFw.stopEvent
           else ⟨true, .STOPPED, none⟩))) :=
  ⟨⟨by decide, by decide,
      ((WaitForStop_result activeFw 100 lateArrival).2 _ _ (by decide)).1 (by decide)⟩,
    ⟨by decide, by decide,
      ((WaitForStop_result activeFw 100 earlyArrival).2 _ _ (by decide)).2.1 (by decide)⟩,
    ⟨by decide,
      ((WaitForStop_result activeFw 0 lateArrival).2 _ _ (by decide)).2.2.1 rfl⟩,
    ⟨by decide,
      fun t ty ex h => by
        simp only [lateArrival, Option.some.injEq, Prod.mk.injEq] at h
        rw [← h.2.1]
        decide,
      ((WaitForStop_result activeFw 100 lateArrival).2 ⟨.WAIT_TIMEDOUT, none⟩ afterTimeout
        (by decide)).2.2.2.1 (by decide)
        (fun t ty ex h => by
          simp only [lateArrival, Option.some.injEq, Prod.mk.injEq] at h
          rw [← h.2.1]
          decide)⟩,
    ⟨by decide, by decide, by decide,
      ((WaitForStop_result activeFw 100 errorArrival).2 _ _ (by decide)).2.2.2.2.2 (by decide)
        20 .ERROR (some (.runtime_error "uninit failed")) rfl (Or.inr (by decide))⟩,
    ⟨by decide, by decide,
      ((WaitForStop_result stoppedFw 100 lateArrival).2 _ _ (by decide)).2.2.2.2.1
        (by decide)⟩⟩

theorem Shutdown0_slot_type (env : Collab) (restart wasActive : Bool) (fw : FrameworkPrivate) :
    (Shutdown0 env restart wasActive fw).stopEvent.valid = true ∧
    (Shutdown0 env restart wasActive fw).stopEvent.type ≠ .WAIT_TIMEDOUT := by
  unfold Shutdown0 shutdownBody
  cases hs : shutdownSteps env wasActive fw with
  | throw e s =>
    simp only [Res.andThen]
    rw [(SystemShuttingdownDone_slot _ s).1]
    simp
  | ok s =>
    simp only [Res.andThen]
    have hr := quiet_replay env restart wasActive (ShutdownDone_unlocked restart s)
    cases hrep : replay env restart wasActive (ShutdownDone_unlocked restart s) with
    | ok s1 =>
      rw [hrep] at hr
      have h1 : s1.stopEvent = _ := hr.1.trans (ShutdownDone_slot restart s).1
      simp only [h1]
      cases restart <;> simp
    | throw e s1 =>
      simp only []
      rw [(SystemShuttingdownDone_slot _ s1).1]
      simp

/-! ### The abort branch of `StartAndWait` -/

theorem waitStep_frame (op waitUntil : Int) (w : Wake) (v : WaitVars) (x : ThreadWorld)
    (hw : w.aborted = none) :
    (waitStep op waitUntil w v x).2.b.aborted = x.b.aborted ∧
    (waitStep op waitUntil w v x).2.live = x.live ∧
    (waitStep op waitUntil w v x).2.bt.self = x.bt.self ∧
    (waitStep op waitUntil w v x).2.bt.doRun = x.bt.doRun := by
  unfold waitStep
  cases hd : w.done <;> simp only [applyWake, hw, hd, Option.getD, ThreadWorld.record] <;>
    split <;> try split <;> try split
  all_goals simp [ThreadWorld.setRes]

theorem waitStep_flags (op waitUntil : Int) (w : Wake) (v : WaitVars) (x : ThreadWorld)
    (hv : v.timeout = false ∧ v.uninstall = false) :
    ((waitStep op waitUntil w v x).1.timeout = true ∨
        (waitStep op waitUntil w v x).1.uninstall = true →
      (waitStep op waitUntil w v x).2.bt.res = some none) := by
  unfold waitStep
  simp only []
  split
  · intro _; rfl
  · split
    · split
      · intro _; rfl
      · simp [hv.1, hv.2]
    · simp [hv.1, hv.2]

theorem waitLoop_frame (op waitUntil : Int) (wakes : List Wake)
    (hw : ∀ w ∈ wakes, w.aborted = none) (v : WaitVars) (x : ThreadWorld)
    (hv : v.timeout = false ∧ v.uninstall = false)
    (v1 : WaitVars) (x1 : ThreadWorld) (h : waitLoop op waitUntil wakes v x = some (v1, x1)) :
    x1.b.aborted = x.b.aborted ∧ x1.live = x.live ∧ x1.bt.self = x.bt.self ∧
    x1.bt.doRun = x.bt.doRun ∧
    (v1.timeout = true ∨ v1.uninstall = true → x1.bt.res = some none) := by
  induction wakes generalizing v x with
  | nil => simp [waitLoop] at h
  | cons w ws ih =>
    have hw0 : w.aborted = none := hw w (List.mem_cons_self _ _)
    obtain ⟨f1, f2, f3, f4⟩ := waitStep_frame op waitUntil w v x hw0
    have hfl := waitStep_flags op waitUntil w v x hv
    unfold waitLoop at h
    simp only [] at h
    by_cases hset : (waitStep op waitUntil w v x).2.bt.res.isSome = true
    · rw [if_pos hset] at h
      have heq : waitStep op waitUntil w v x = (v1, x1) := Option.some.inj h
      rw [heq] at f1 f2 f3 f4 hfl
      exact ⟨f1, f2, f3, f4, hfl⟩
    · rw [if_neg hset] at h
      have hv1 : (waitStep op waitUntil w v x).1.timeout = false ∧
          (waitStep op waitUntil w v x).1.uninstall = false := by
        constructor
        · by_contra hc
          have := hfl (Or.inl (by simpa using hc))
          exact hset (by simp [this])
        · by_contra hc
          have := hfl (Or.inr (by simpa using hc))
          exact hset (by simp [this])
      obtain ⟨g1, g2, g3, g4, g5⟩ :=
        ih (fun w1 h1 => hw w1 (List.mem_cons_of_mem _ h1)) _ _ hv1 h
      exact ⟨g1.trans f1, g2.trans f2, g3.trans f3, g4.trans f4, g5⟩

/-- As long as no other thread stores into `b->aborted` during the wait, a
`START` or `STOP` never takes the abort branch of `StartAndWait`, whatever
the wait loop found: the flag stays `NO`, the worker is not quit and is
pushed to the front of the live pool, and when the loop ended on a time-out
or an uninstall the call returns a null exception pointer. -/
theorem StartAndWait_abort_branch_unreached (op t0 : Int) (hop : op = OP_START ∨ op = OP_STOP)
    (wakes : List Wake) (hw : ∀ w ∈ wakes, w.aborted = none) (x : ThreadWorld)
    (r : Option Exc) (x1 : ThreadWorld) (h : StartAndWait op t0 wakes x = some (r, x1)) :
    x1.b.aborted = .NO ∧ x1.live = x.bt.self :: x.live ∧ x1.bt.doRun = x.bt.doRun ∧
    (∀ v x0, runWait op t0 wakes x = some (v, x0) →
      v.timeout = true ∨ v.uninstall = true → r = none) := by
  unfold StartAndWait at h
  cases hr : runWait op t0 wakes x with
  | none => simp [hr] at h
  | some p =>
    obtain ⟨v, x4⟩ := p
    simp only [hr, Option.some.injEq] at h
    have hr2 := hr
    unfold runWait at hr2
    obtain ⟨g1, g2, g3, g4, g5⟩ :=
      waitLoop_frame op _ wakes hw _ _ ⟨rfl, rfl⟩ v x4 hr2
    have hb : (beforeWait op x).b.aborted = .NO := by simp [beforeWait, hop]
    have hl : (beforeWait op x).live = x.live := by
      unfold beforeWait; split <;> rfl
    have hs : (beforeWait op x).bt.self = x.bt.self := by
      unfold beforeWait; split <;> rfl
    have hd : (beforeWait op x).bt.doRun = x.bt.doRun := by
      unfold beforeWait; split <;> rfl
    have ha : x4.b.aborted = .NO := g1.trans hb
    have hne : ¬ (x4.b.aborted = Aborted.NONE ∧ (v.timeout = true ∨ v.uninstall = true)) := by
      rw [ha]; simp
    unfold afterWait at h
    rw [if_neg hne] at h
    simp only [Prod.mk.injEq] at h
    obtain ⟨h1, h2⟩ := h
    subst h2
    refine ⟨by simpa [ThreadWorld.record] using ha, ?_, ?_, ?_⟩
    · simp [ThreadWorld.record, g2, g3, hl, hs]
    · simp [ThreadWorld.record, g4, hd]
    · intro v0 x0 h0 hf
      simp only [Option.some.injEq, Prod.mk.injEq] at h0
      obtain ⟨e1, e2⟩ := h0
      subst e1
      have := g5 hf
      rw [← h1]
      simp [ThreadWorld.getRes, ThreadWorld.record, this]

/-- The abort branch itself, for a start that timed out: once `b->aborted`
reads `NONE` after the loop, `StartAndWait` builds the time-out error, stores
`YES`, runs `StartFailed` and `Quit`, and leaves the live pool alone. -/
theorem afterWait_timeout_start (v : WaitVars) (x : ThreadWorld)
    (ha : x.b.aborted = .NONE) (ht : v.timeout = true) :
    (afterWait OP_START v x).1 = some (.runtime_error
      ("Bundle#" ++ toString x.b.id ++ " " ++ "start" ++ " failed with reason: " ++
        ("Time-out during bundle " ++ "start" ++ "()"))) ∧
    (afterWait OP_START v x).2.b.aborted = .YES ∧
    (afterWait OP_START v x).2.b.state = .STATE_RESOLVED ∧
    (afterWait OP_START v x).2.bt.doRun = false ∧
    (afterWait OP_START v x).2.live = x.live ∧
    (afterWait OP_START v x).2.trace =
      x.trace ++ [.startFailed, .quit, .resetBundleThread] := by
  simp [afterWait, ha, ht, StartFailed, Quit, ThreadWorld.record, ThreadWorld.setRes,
    ThreadWorld.getRes]

/-! ### The dispatch of `Run` -/

/-- C12, as stated, fails: the worker dispatches the start of bundle 1 and
`Start0` throws a `std::runtime_error`.  The handler only logs: the opcode
goes back to `OP_IDLE` and the result published is the null pointer. -/
theorem dispatch_thrown_publishes_null :
    pendingStart.bt.operation = OP_START ∧
    (dispatch (.thrown (.runtime_error "activator failed")) pendingStart).exc = none ∧
    (dispatch (.thrown (.runtime_error "activator failed")) pendingStart).st =
      { pendingStart with
        bt := { pendingStart.bt with operation := OP_IDLE, res := some none },
        trace := [.start0, .logError "activator failed"] } ∧
    Run [⟨[], .thrown (.runtime_error "activator failed")⟩] pendingStart =
      .waiting { pendingStart with
        bt := { pendingStart.bt with operation := OP_IDLE, res := some none },
        trace := [.start0, .logError "activator failed", .resolverNotifyAll] } := by
  decide

/-- C12, amended: for every operation the worker dispatches (`BUNDLE_EVENT`,
`START` or `STOP`), a `std::exception` thrown by its execution is logged, the
opcode is set back to `OP_IDLE` and a null result is published; what
`Start0` or `Stop1` return is published as returned (null for the listeners);
a dispatch that neither throws nor returns an error publishes a null
result.  A running worker with a pending opcode performs this dispatch
without waiting. -/
theorem dispatch_publishes (x : ThreadWorld)
    (hop : x.bt.operation = OP_BUNDLE_EVENT ∨ x.bt.operation = OP_START ∨
      x.bt.operation = OP_STOP) :
    (∀ e : Exc, e.isStd = true →
      (dispatch (.thrown e) x).exc = none ∧
      (dispatch (.thrown e) x).st.bt.operation = OP_IDLE ∧
      (dispatch (.thrown e) x).st.bt.res = some none ∧
      ThreadCall.logError e.what ∈ (dispatch (.thrown e) x).st.trace) ∧
    (∀ r : Option Exc,
      (dispatch (.returned r) x).exc = none ∧
      (dispatch (.returned r) x).st.bt.operation = OP_IDLE ∧
      (dispatch (.returned r) x).st.bt.res =
        some (if x.bt.operation = OP_BUNDLE_EVENT then none else r)) ∧
    (dispatch (.returned none) x).st.bt.res = some none ∧
    (x.bt.doRun = true → ∀ (ws : List IdleWake) (o : Outcome) (rest : List Round),
      Run (⟨ws, o⟩ :: rest) x =
        match dispatch o x with
        | .ok x2 => Run rest (x2.record .resolverNotifyAll)
        | .throw e x2 => .escaped e x2) := by
  have hne : x.bt.operation ≠ OP_IDLE := by
    rcases hop with h | h | h <;> rw [h] <;> decide
  have hidle : ∀ ws : List IdleWake, idleLoop ws x = .ready x := by
    intro ws
    cases ws <;> simp [idleLoop, hne]
  refine ⟨?_, ?_, ?_, ?_⟩
  · intro e he
    rcases hop with h | h | h <;>
      simp [dispatch, selectedCall, h, he, publish, ThreadWorld.record, Res.exc, Res.st,
        OP_BUNDLE_EVENT, OP_START, OP_STOP]
  · intro r
    rcases hop with h | h | h <;>
      simp [dispatch, selectedCall, h, publish, ThreadWorld.record, Res.exc, Res.st,
        OP_BUNDLE_EVENT, OP_START, OP_STOP]
  · rcases hop with h | h | h <;>
      simp [dispatch, selectedCall, h, publish, ThreadWorld.record, Res.st,
        OP_BUNDLE_EVENT, OP_START, OP_STOP]
  · intro hrun ws o rest
    simp only [Run, hrun, hidle, if_true]
    simp

/-- C12, at a concrete input: the start of bundle 1, where `Start0` throws,
returns an error, or succeeds. -/
theorem dispatch_publishes_witness :
    (pendingStart.bt.operation = OP_BUNDLE_EVENT ∨ pendingStart.bt.operation = OP_START ∨
      pendingStart.bt.operation = OP_STOP) ∧
    (Exc.runtime_error "activator failed").isStd = true ∧
    (dispatch (.thrown (.runtime_error "activator failed")) pendingStart).st.bt.res =
      some none ∧
    (dispatch (.returned (some (.runtime_error "start failed"))) pendingStart).st.bt.res =
      some (if pendingStart.bt.operation = OP_BUNDLE_EVENT then none
            else some (.runtime_error "start failed")) ∧
    (dispatch (.returned none) pendingStart).st.bt.res = some none :=
  ⟨by decide, rfl,
    ((dispatch_publishes pendingStart (by decide)).1 (.runtime_error "activator failed")
      rfl).2.2.1,
    ((dispatch_publishes pendingStart (by decide)).2.1
      (some (.runtime_error "start failed"))).2.2,
    (dispatch_publishes pendingStart (by decide)).2.2.1⟩

/-! ### What the wait loop of `StartAndWait` changes -/

theorem waitStep_facts (op waitUntil : Int) (w : Wake) (v : WaitVars) (x : ThreadWorld) :
    ((waitStep op waitUntil w v x).2.live = x.live ∧
      (waitStep op waitUntil w v x).2.bt.self = x.bt.self ∧
      (waitStep op waitUntil w v x).2.bt.doRun = x.bt.doRun ∧
      (waitStep op waitUntil w v x).2.bt.bundle = x.bt.bundle) ∧
    ((waitStep op waitUntil w v x).2.bt.operation = x.bt.operation ∨
      (waitStep op waitUntil w v x).2.bt.operation = OP_IDLE) ∧
    (waitStep op waitUntil w v x).2.b.aborted = w.aborted.getD x.b.aborted ∧
    (waitStep op waitUntil w v x).2.trace = x.trace ++ [.waitFor v.left] ∧
    ((waitStep op waitUntil w v x).2.bt.res = some none ∨
      (∃ r, w.done = some r ∧ (waitStep op waitUntil w v x).2.bt.res = some r) ∨
      (waitStep op waitUntil w v x).2.bt.res = x.bt.res) ∧
    (v.left ≤ 0 → (waitStep op waitUntil w v x).1.left = v.left ∧
      (waitStep op waitUntil w v x).1.timeout = v.timeout) ∧
    (¬ (op = OP_START ∨ op = OP_STOP) →
      (waitStep op waitUntil w v x).1.uninstall = v.uninstall) := by
  unfold waitStep
  cases hd : w.done <;> simp only [applyWake, hd, ThreadWorld.record] <;>
    split <;> try split <;> try split
  all_goals simp [ThreadWorld.setRes]
  all_goals omega

theorem waitLoop_facts (op waitUntil : Int) (wakes : List Wake) (v : WaitVars)
    (x : ThreadWorld) (v1 : WaitVars) (x1 : ThreadWorld)
    (h : waitLoop op waitUntil wakes v x = some (v1, x1)) :
    (x1.live = x.live ∧ x1.bt.self = x.bt.self ∧ x1.bt.doRun = x.bt.doRun ∧
      x1.bt.bundle = x.bt.bundle) ∧
    (x1.bt.operation = x.bt.operation ∨ x1.bt.operation = OP_IDLE) ∧
    (x1.b.aborted = x.b.aborted ∨ ∃ w ∈ wakes, w.aborted = some x1.b.aborted) ∧
    (∃ r0, x1.bt.res = some r0 ∧
      (r0 = none ∨ (∃ w ∈ wakes, w.done = some r0) ∨ x.bt.res = some r0)) ∧
    (v.left ≤ 0 → v1.left = v.left ∧ v1.timeout = v.timeout ∧
      ∀ c ∈ x1.trace, c ∈ x.trace ∨ c = .waitFor v.left) ∧
    (¬ (op = OP_START ∨ op = OP_STOP) → v1.uninstall = v.uninstall) := by
  induction wakes generalizing v x with
  | nil => simp [waitLoop] at h
  | cons w ws ih =>
    obtain ⟨⟨a1, a2, a3, a4⟩, a5, a6, a7, a8, a9, a10⟩ := waitStep_facts op waitUntil w v x
    have hab : (waitStep op waitUntil w v x).2.b.aborted = x.b.aborted ∨
        w.aborted = some (waitStep op waitUntil w v x).2.b.aborted := by
      rw [a6]
      cases w.aborted <;> simp
    have htr : ∀ c ∈ (waitStep op waitUntil w v x).2.trace,
        c ∈ x.trace ∨ c = .waitFor v.left := by
      intro c hc
      rw [a7, List.mem_append, List.mem_singleton] at hc
      exact hc
    unfold waitLoop at h
    simp only [] at h
    by_cases hset : (waitStep op waitUntil w v x).2.bt.res.isSome = true
    · rw [if_pos hset] at h
      have heq : waitStep op waitUntil w v x = (v1, x1) := Option.some.inj h
      rw [heq] at a1 a2 a3 a4 a5 a8 a9 a10 hab htr hset
      simp only [] at a1 a2 a3 a4 a5 a8 a9 a10 hab htr hset
      refine ⟨⟨a1, a2, a3, a4⟩, a5, ?_, ?_, ?_, a10⟩
      · rcases hab with hb | hb
        · exact Or.inl hb
        · exact Or.inr ⟨w, List.mem_cons_self _ _, hb⟩
      · rcases a8 with h8 | ⟨r, hr1, hr2⟩ | h8
        · exact ⟨none, h8, Or.inl rfl⟩
        · exact ⟨r, hr2, Or.inr (Or.inl ⟨w, List.mem_cons_self _ _, hr1⟩)⟩
        · obtain ⟨r0, hr0⟩ := Option.isSome_iff_exists.mp hset
          exact ⟨r0, hr0, Or.inr (Or.inr (h8 ▸ hr0))⟩
      · intro hl
        exact ⟨(a9 hl).1, (a9 hl).2, htr⟩
    · rw [if_neg hset] at h
      have hnone : (waitStep op waitUntil w v x).2.bt.res = none := by
        simpa using hset
      obtain ⟨⟨b1, b2, b3, b4⟩, b5, b6, b7, b8, b9⟩ := ih _ _ h
      refine ⟨⟨b1.trans a1, b2.trans a2, b3.trans a3, b4.trans a4⟩, ?_, ?_, ?_, ?_, ?_⟩
      · rcases b5 with hb | hb
        · rcases a5 with ha | ha
          · exact Or.inl (hb.trans ha)
          · exact Or.inr (hb.trans ha)
        · exact Or.inr hb
      · rcases b6 with hb | ⟨w1, hw1, hb⟩
        · rcases hab with ha | ha
          · exact Or.inl (hb.trans ha)
          · exact Or.inr ⟨w, List.mem_cons_self _ _, by rw [hb]; exact ha⟩
        · exact Or.inr ⟨w1, List.mem_cons_of_mem _ hw1, hb⟩
      · obtain ⟨r0, hr0, hc⟩ := b7
        refine ⟨r0, hr0, ?_⟩
        rcases hc with hc | ⟨w1, hw1, hc⟩ | hc
        · exact Or.inl hc
        · exact Or.inr (Or.inl ⟨w1, List.mem_cons_of_mem _ hw1, hc⟩)
        · rw [hnone] at hc
          exact absurd hc (by simp)
      · intro hl
        obtain ⟨e1, e2⟩ := a9 hl
        obtain ⟨c1, c2, c3⟩ := b8 (by rw [e1]; exact hl)
        refine ⟨c1.trans e1, c2.trans e2, ?_⟩
        intro c hc
        rcases c3 c hc with hc1 | hc1
        · exact htr c hc1
        · exact Or.inr (by rw [hc1, e1])
      · intro hn
        exact (b9 hn).trans (a10 hn)

theorem afterWait_fields (op : Int) (v : WaitVars) (x : ThreadWorld) :
    (afterWait op v x).2.bt.bundle = x.bt.bundle ∧
    (afterWait op v x).2.bt.operation = x.bt.operation := by
  unfold afterWait
  split
  · simp only []
    split
    · split <;> simp [StartFailed, Stop2, Quit, ThreadWorld.record, ThreadWorld.setRes]
    · simp [Quit, ThreadWorld.record, ThreadWorld.setRes]
  · simp [ThreadWorld.record]

theorem afterWait_no_flags (op : Int) (v : WaitVars) (x : ThreadWorld)
    (ht : v.timeout = false) (hu : v.uninstall = false) :
    (afterWait op v x).1 = x.bt.res.getD none ∧
    (afterWait op v x).2.b = x.b ∧
    (afterWait op v x).2.bt = x.bt ∧
    (afterWait op v x).2.live = x.bt.self :: x.live ∧
    (afterWait op v x).2.trace = x.trace ++ [.pushFront, .resetBundleThread] := by
  simp [afterWait, ht, hu, ThreadWorld.record, ThreadWorld.getRes]

theorem afterWait_no_timeout (op : Int) (v : WaitVars) (x : ThreadWorld)
    (ht : v.timeout = false) :
    (∀ c ∈ (afterWait op v x).2.trace,
      c ∈ x.trace ∨ c = .quit ∨ c = .pushFront ∨ c = .resetBundleThread) ∧
    ((afterWait op v x).1 = x.bt.res.getD none ∨
      (afterWait op v x).1 = some (.runtime_error
        ("Bundle#" ++ toString (afterWait op v x).2.b.id ++ " " ++
          (if op = OP_START then "start" else "stop") ++ " failed with reason: " ++
          ("Bundle uninstalled during " ++ (if op = OP_START then "start" else "stop") ++
            "()")))) := by
  unfold afterWait
  split
  · simp only [ht, Bool.false_eq_true, if_false]
    constructor
    · intro c hc
      simp only [Quit, ThreadWorld.record, ThreadWorld.setRes, List.mem_append,
        List.mem_singleton] at hc
      tauto
    · right
      simp [Quit, ThreadWorld.record, ThreadWorld.setRes, ThreadWorld.getRes]
  · constructor
    · intro c hc
      simp only [ThreadWorld.record, List.mem_append, List.mem_singleton] at hc
      tauto
    · left
      simp [ThreadWorld.record, ThreadWorld.getRes]

theorem beforeWait_fields (op : Int) (x : ThreadWorld) :
    (beforeWait op x).bt.operation = op ∧
    (beforeWait op x).bt.bundle = some x.b.id ∧
    (beforeWait op x).bt.res = none ∧
    (beforeWait op x).bt.self = x.bt.self ∧
    (beforeWait op x).bt.doRun = x.bt.doRun ∧
    (beforeWait op x).live = x.live ∧
    (beforeWait op x).trace = x.trace ++ [.notifyAll] ∧
    (¬ (op = OP_START ∨ op = OP_STOP) → (beforeWait op x).b = x.b) := by
  unfold beforeWait
  split <;> simp [ThreadWorld.record, *]

theorem initialLeft_nonpos (op : Int) (x : ThreadWorld)
    (h : ¬ ((op = OP_START ∨ op = OP_STOP) ∧ 0 < x.bt.startStopTimeout)) :
    initialLeft op x ≤ 0 := by
  unfold initialLeft
  split
  · rename_i hop
    have : ¬ (0 < x.bt.startStopTimeout) := fun hpos => h ⟨hop, hpos⟩
    omega
  · exact le_refl 0

theorem initialLeft_zero (op : Int) (x : ThreadWorld)
    (h : ¬ (op = OP_START ∨ op = OP_STOP) ∨ x.bt.startStopTimeout = 0) :
    initialLeft op x = 0 := by
  unfold initialLeft
  split
  · rename_i hop
    rcases h with h | h
    · exact absurd hop h
    · exact h
  · rfl

theorem StartAndWait_event_exit (t0 : Int) (wakes : List Wake) (x : ThreadWorld)
    (r : Option Exc) (xf : ThreadWorld)
    (h : StartAndWait OP_BUNDLE_EVENT t0 wakes x = some (r, xf)) :
    (xf.b.aborted = x.b.aborted ∨ ∃ w ∈ wakes, w.aborted = some xf.b.aborted) ∧
    xf.live = x.bt.self :: x.live ∧
    xf.bt.doRun = x.bt.doRun ∧
    (r = none ∨ ∃ w ∈ wakes, w.done = some r) := by
  obtain ⟨f1, f2, f3, f4, f5, f6, f7, f8⟩ := beforeWait_fields OP_BUNDLE_EVENT x
  have hns : ¬ (OP_BUNDLE_EVENT = OP_START ∨ OP_BUNDLE_EVENT = OP_STOP) := by decide
  have hl := initialLeft_zero OP_BUNDLE_EVENT x (Or.inl hns)
  unfold StartAndWait at h
  cases hr : runWait OP_BUNDLE_EVENT t0 wakes x with
  | none => simp [hr] at h
  | some p =>
    obtain ⟨v, x1⟩ := p
    simp only [hr, Option.some.injEq] at h
    obtain ⟨⟨g11, g12, g13, -⟩, -, g3, ⟨r0, g41, g42⟩, g5, g6⟩ :=
      waitLoop_facts OP_BUNDLE_EVENT _ wakes _ _ v x1 hr
    obtain ⟨-, k2, -⟩ := g5 (le_of_eq hl)
    have k4 := g6 hns
    simp only [] at k2 k4
    obtain ⟨a1, a2, a3, a4, -⟩ := afterWait_no_flags OP_BUNDLE_EVENT v x1 k2 k4
    rw [h] at a1 a2 a3 a4
    simp only [] at a1 a2 a3 a4
    refine ⟨?_, ?_, ?_, ?_⟩
    · rw [a2]
      rw [f8 hns] at g3
      exact g3
    · rw [a4, g11, g12, f6, f4]
    · rw [a3, g13, f5]
    · rw [g41] at a1
      simp only [Option.getD] at a1
      rw [a1]
      rcases g42 with g | g | g
      · exact Or.inl g
      · exact Or.inr g
      · rw [f3] at g
        exact absurd g (by simp)

/-- C11: the wait loop of `StartAndWait`, for every bundle and every sequence
of wake-ups.  The timeout flag is set only for `START` or `STOP` with
`startStopTimeout > 0`.  For any other opcode (`BUNDLE_EVENT`) and for a start
or stop with `startStopTimeout = 0` every wait is `WaitFor(lock, 0)`, neither
`StartFailed` nor `Stop2` runs, and the result is null, a result the worker
published, or the uninstall error, never the time-out error.  For
`BUNDLE_EVENT` the call does not store into `b->aborted` and takes the normal
exit: the worker is not quit and goes back to the live pool, and the result
is the one the worker published; the same holds for `BundleChanged`. -/
theorem StartAndWait_timeout_flag (op t0 : Int) (wakes : List Wake) (x : ThreadWorld) :
    (∀ v x1, runWait op t0 wakes x = some (v, x1) → v.timeout = true →
      (op = OP_START ∨ op = OP_STOP) ∧ 0 < x.bt.startStopTimeout) ∧
    ((¬ (op = OP_START ∨ op = OP_STOP) ∨ x.bt.startStopTimeout = 0) →
      ∀ r xf, StartAndWait op t0 wakes x = some (r, xf) →
        (∀ c ∈ xf.trace, c ∈ x.trace ∨ c = .notifyAll ∨ c = .waitFor 0 ∨ c = .quit ∨
          c = .pushFront ∨ c = .resetBundleThread) ∧
        (r = none ∨ (∃ w ∈ wakes, w.done = some r) ∨
          r = some (.runtime_error
            ("Bundle#" ++ toString xf.b.id ++ " " ++
              (if op = OP_START then "start" else "stop") ++ " failed with reason: " ++
              ("Bundle uninstalled during " ++ (if op = OP_START then "start" else "stop") ++
                "()"))))) ∧
    (op = OP_BUNDLE_EVENT →
      ∀ r xf, StartAndWait op t0 wakes x = some (r, xf) →
        (xf.b.aborted = x.b.aborted ∨ ∃ w ∈ wakes, w.aborted = some xf.b.aborted) ∧
        xf.live = x.bt.self :: x.live ∧
        xf.bt.doRun = x.bt.doRun ∧
        (r = none ∨ ∃ w ∈ wakes, w.done = some r)) ∧
    (∀ (be : BundleEvent) (xf : ThreadWorld), BundleChanged be t0 wakes x = some xf →
      (xf.b.aborted = x.b.aborted ∨ ∃ w ∈ wakes, w.aborted = some xf.b.aborted) ∧
      xf.live = x.bt.self :: x.live ∧
      xf.bt.doRun = x.bt.doRun) := by
  obtain ⟨f1, f2, f3, f4, f5, f6, f7, f8⟩ := beforeWait_fields op x
  refine ⟨?_, ?_, ?_, ?_⟩
  · intro v x1 hr ht
    by_contra hc
    have hl := initialLeft_nonpos op x hc
    obtain ⟨-, -, -, -, g5, -⟩ := waitLoop_facts op _ wakes _ _ v x1 hr
    have := (g5 hl).2.1
    simp only [] at this
    rw [ht] at this
    exact absurd this (by decide)
  · intro hb r xf h
    have hl := initialLeft_zero op x hb
    unfold StartAndWait at h
    cases hr : runWait op t0 wakes x with
    | none => simp [hr] at h
    | some p =>
      obtain ⟨v, x1⟩ := p
      simp only [hr, Option.some.injEq] at h
      obtain ⟨-, -, -, ⟨r0, g41, g42⟩, g5, -⟩ := waitLoop_facts op _ wakes _ _ v x1 hr
      obtain ⟨k1, k2, k3⟩ := g5 (le_of_eq hl)
      simp only [] at k1 k2 k3
      obtain ⟨a1, a2⟩ := afterWait_no_timeout op v x1 k2
      rw [h] at a1 a2
      simp only [] at a1 a2
      constructor
      · intro c hc
        rcases a1 c hc with hc1 | hc1 | hc1 | hc1
        · rcases k3 c hc1 with hc2 | hc2
          · rw [f7, List.mem_append, List.mem_singleton] at hc2
            rcases hc2 with hc3 | hc3
            · exact Or.inl hc3
            · exact Or.inr (Or.inl hc3)
          · rw [hl] at hc2
            exact Or.inr (Or.inr (Or.inl hc2))
        · exact Or.inr (Or.inr (Or.inr (Or.inl hc1)))
        · exact Or.inr (Or.inr (Or.inr (Or.inr (Or.inl hc1))))
        · exact Or.inr (Or.inr (Or.inr (Or.inr (Or.inr hc1))))
      · rcases a2 with a2 | a2
        · rw [g41] at a2
          simp only [Option.getD] at a2
          rw [a2]
          rcases g42 with g | g | g
          · exact Or.inl g
          · exact Or.inr (Or.inl g)
          · rw [f3] at g
            exact absurd g (by simp)
        · exact Or.inr (Or.inr a2)
  · intro hop r xf h
    subst hop
    exact StartAndWait_event_exit t0 wakes x r xf h
  · intro be xf h
    unfold BundleChanged at h
    rw [Option.map_eq_some'] at h
    obtain ⟨p, hp, hxf⟩ := h
    obtain ⟨r, y⟩ := p
    simp only [] at hxf
    subst hxf
    have hh := StartAndWait_event_exit t0 wakes _ r _ hp
    exact ⟨hh.1, hh.2.1, hh.2.2.1⟩

/-- C11, at concrete inputs: a bundle event and a start without budget, each
woken after one hour and finished after two and a half, and the start with a
budget of 50 ms that times out. -/
theorem StartAndWait_timeout_flag_witness :
    (runWait OP_START 0 timeoutWakes startingWorld = some timedOutWait ∧
      timedOutWait.1.timeout = true ∧
      ((OP_START = OP_START ∨ OP_START = OP_STOP) ∧ 0 < startingWorld.bt.startStopTimeout)) ∧
    ((¬ (OP_START = OP_START ∨ OP_START = OP_STOP) ∨ unboundedWorld.bt.startStopTimeout = 0) ∧
      StartAndWait OP_START 0 slowWakes unboundedWorld = some (none, afterUnboundedStart) ∧
      (∀ c ∈ afterUnboundedStart.trace, c ∈ unboundedWorld.trace ∨ c = .notifyAll ∨
        c = .waitFor 0 ∨ c = .quit ∨ c = .pushFront ∨ c = .resetBundleThread)) ∧
    (StartAndWait OP_BUNDLE_EVENT 0 slowWakes startingWorld = some (none, afterEvent) ∧
      (afterEvent.b.aborted = startingWorld.b.aborted ∨
        ∃ w ∈ slowWakes, w.aborted = some afterEvent.b.aborted) ∧
      afterEvent.live = startingWorld.bt.self :: startingWorld.live ∧
      afterEvent.bt.doRun = startingWorld.bt.doRun) :=
  ⟨⟨by decide, by decide,
      (StartAndWait_timeout_flag OP_START 0 timeoutWakes startingWorld).1 timedOutWait.1
        timedOutWait.2 (by decide) (by decide)⟩,
    ⟨by decide, by decide,
      ((StartAndWait_timeout_flag OP_START 0 slowWakes unboundedWorld).2.1 (Or.inr rfl) none
        afterUnboundedStart (by decide)).1⟩,
    ⟨by decide,
      ((StartAndWait_timeout_flag OP_BUNDLE_EVENT 0 slowWakes startingWorld).2.2.1 rfl none
        afterEvent (by decide)).1,
      ((StartAndWait_timeout_flag OP_BUNDLE_EVENT 0 slowWakes startingWorld).2.2.1 rfl none
        afterEvent (by decide)).2.1,
      ((StartAndWait_timeout_flag OP_BUNDLE_EVENT 0 slowWakes startingWorld).2.2.1 rfl none
        afterEvent (by decide)).2.2.1⟩⟩

end us
